import Mathlib

set_option maxHeartbeats 1000000
set_option linter.unusedVariables false

/-!
Shallow embedding of the xtracer renderer sources (linear.rs, octree.rs,
random.rs, shade.rs, settings.rs, main.rs) with f64 idealized as the exact
reals.  Definitions mirror the Rust functions statement by statement; the
theorems at the end of the file settle the frozen claims about the program.
-/

noncomputable section

/-- Embeds linear.rs Vector4F: 4-component homogeneous vector (f64 fields). -/
structure Vector4F where
  x : ℝ
  y : ℝ
  z : ℝ
  w : ℝ

namespace Vector4F

/-- Embeds Vector4F::new: w is set to 1. -/
def new (x y z : ℝ) : Vector4F := ⟨x, y, z, 1⟩

/-- Embeds Vector4F::null. -/
def null : Vector4F := ⟨0, 0, 0, 0⟩

/-- Embeds Vector4F::add (the associated function, also the Add impls). -/
def add (v1 v2 : Vector4F) : Vector4F :=
  ⟨v1.x + v2.x, v1.y + v2.y, v1.z + v2.z, v1.w + v2.w⟩

/-- Embeds Vector4F::sub (the associated function, also the Sub impls). -/
def sub (v1 v2 : Vector4F) : Vector4F :=
  ⟨v1.x - v2.x, v1.y - v2.y, v1.z - v2.z, v1.w - v2.w⟩

/-- Embeds Vector4F::dot: only the first three components enter the product. -/
def dot (v1 v2 : Vector4F) : ℝ :=
  v1.x * v2.x + v1.y * v2.y + v1.z * v2.z

/-- Embeds Vector4F::cross (w set to 1). -/
def cross (v1 v2 : Vector4F) : Vector4F :=
  ⟨v1.y * v2.z - v2.y * v1.z,
   v1.z * v2.x - v2.z * v1.x,
   v1.x * v2.y - v2.x * v1.y,
   1⟩

/-- Embeds Vector4F::sqr_len. -/
def sqr_len (v : Vector4F) : ℝ := v.x * v.x + v.y * v.y + v.z * v.z

/-- Embeds Vector4F::len. -/
def len (v : Vector4F) : ℝ := Real.sqrt v.sqr_len

/-- Embeds Vector4F::normalize: returns the null vector when the length is 0. -/
def normalize (v : Vector4F) : Vector4F :=
  if v.len = 0 then null
  else ⟨v.x / v.len, v.y / v.len, v.z / v.len, v.w⟩

/-- Embeds Vector4F::invert. -/
def invert (v : Vector4F) : Vector4F := ⟨v.x * -1, v.y * -1, v.z * -1, v.w⟩

/-- Embeds Vector4F::half: normalized sum. -/
def half (v1 v2 : Vector4F) : Vector4F := (add v1 v2).normalize

end Vector4F

/-- Embeds settings.rs Color (f32 fields idealized as reals). -/
structure Color where
  r : ℝ
  g : ℝ
  b : ℝ

/-- Embeds Color::black. -/
def Color.black : Color := ⟨0, 0, 0⟩

/-- Embeds linear.rs Vertex4F. -/
structure Vertex4F where
  pos : Vector4F
  normal : Vector4F
  tex_u : ℝ
  tex_v : ℝ
  color : Color

/-- Embeds linear.rs Intersection (hit record). -/
structure Intersection where
  pos : Vector4F
  normal : Vector4F
  tex_u : ℝ
  tex_v : ℝ
  barycentric : Vector4F
  ray_t : ℝ

/-- Embeds linear.rs point_on_ray. -/
def point_on_ray (rorg rdir : Vector4F) (t : ℝ) : Vector4F :=
  Vector4F.new (rorg.x + rdir.x * t) (rorg.y + rdir.y * t) (rorg.z + rdir.z * t)

/-- The triangle plane normal n computed in intersect_ray_triangle:
cross of the edges p1 - p0 and p2 - p1. -/
def tri_n (t0 t1 t2 : Vertex4F) : Vector4F :=
  Vector4F.cross (Vector4F.sub t1.pos t0.pos) (Vector4F.sub t2.pos t1.pos)

/-- The denominator dot = n . rdir computed in intersect_ray_triangle. -/
def tri_dot (rdir : Vector4F) (t0 t1 t2 : Vertex4F) : ℝ :=
  Vector4F.dot (tri_n t0 t1 t2) rdir

/-- The numerator t = d - n . rorg computed in intersect_ray_triangle
before the division t = t / dot. -/
def tri_t_num (rorg : Vector4F) (t0 t1 t2 : Vertex4F) : ℝ :=
  Vector4F.dot (tri_n t0 t1 t2) t0.pos - Vector4F.dot (tri_n t0 t1 t2) rorg

/-- The dominant-axis 2D projection of intersect_ray_triangle: given the plane
normal n, the hit point p and the triangle vertices, selects the two axes of
the smaller normal components and returns ((u0, u1, u2), (v0, v1, v2)). -/
def tri_proj (n p p0 p1 p2 : Vector4F) : (ℝ × ℝ × ℝ) × (ℝ × ℝ × ℝ) :=
  let absx := |n.x|
  let absy := |n.y|
  let absz := |n.z|
  if absx > absy then
    if absx > absz then
      ((p.y - p0.y, p1.y - p0.y, p2.y - p0.y), (p.z - p0.z, p1.z - p0.z, p2.z - p0.z))
    else
      ((p.x - p0.x, p1.x - p0.x, p2.x - p0.x), (p.y - p0.y, p1.y - p0.y, p2.y - p0.y))
  else
    if absy > absz then
      ((p.x - p0.x, p1.x - p0.x, p2.x - p0.x), (p.z - p0.z, p1.z - p0.z, p2.z - p0.z))
    else
      ((p.x - p0.x, p1.x - p0.x, p2.x - p0.x), (p.y - p0.y, p1.y - p0.y, p2.y - p0.y))

/-- The divided ray parameter t = t / dot computed in intersect_ray_triangle
once the guards have passed. -/
def tri_tq (rorg rdir : Vector4F) (t0 t1 t2 : Vertex4F) : ℝ :=
  tri_t_num rorg t0 t1 t2 / tri_dot rdir t0 t1 t2

/-- The hit point p computed in intersect_ray_triangle. -/
def tri_p (rorg rdir : Vector4F) (t0 t1 t2 : Vertex4F) : Vector4F :=
  ⟨rorg.x + rdir.x * tri_tq rorg rdir t0 t1 t2,
   rorg.y + rdir.y * tri_tq rorg rdir t0 t1 t2,
   rorg.z + rdir.z * tri_tq rorg rdir t0 t1 t2, 1⟩

/-- The projected coordinates computed in intersect_ray_triangle. -/
def tri_uv (rorg rdir : Vector4F) (t0 t1 t2 : Vertex4F) :
    (ℝ × ℝ × ℝ) × (ℝ × ℝ × ℝ) :=
  tri_proj (tri_n t0 t1 t2) (tri_p rorg rdir t0 t1 t2) t0.pos t1.pos t2.pos

/-- The 2x2 determinant temp = u1 * v2 - v1 * u2 of intersect_ray_triangle. -/
def tri_temp (rorg rdir : Vector4F) (t0 t1 t2 : Vertex4F) : ℝ :=
  (tri_uv rorg rdir t0 t1 t2).1.2.1 * (tri_uv rorg rdir t0 t1 t2).2.2.2 -
    (tri_uv rorg rdir t0 t1 t2).2.2.1 * (tri_uv rorg rdir t0 t1 t2).1.2.2

/-- The barycentric coordinate alpha computed in intersect_ray_triangle. -/
def tri_alpha (rorg rdir : Vector4F) (t0 t1 t2 : Vertex4F) : ℝ :=
  ((tri_uv rorg rdir t0 t1 t2).1.1 * (tri_uv rorg rdir t0 t1 t2).2.2.2 -
    (tri_uv rorg rdir t0 t1 t2).2.1 * (tri_uv rorg rdir t0 t1 t2).1.2.2) *
    (1 / tri_temp rorg rdir t0 t1 t2)

/-- The barycentric coordinate beta computed in intersect_ray_triangle. -/
def tri_beta (rorg rdir : Vector4F) (t0 t1 t2 : Vertex4F) : ℝ :=
  ((tri_uv rorg rdir t0 t1 t2).1.2.1 * (tri_uv rorg rdir t0 t1 t2).2.1 -
    (tri_uv rorg rdir t0 t1 t2).2.2.1 * (tri_uv rorg rdir t0 t1 t2).1.1) *
    (1 / tri_temp rorg rdir t0 t1 t2)

/-- The barycentric coordinate gamma computed in intersect_ray_triangle. -/
def tri_gamma (rorg rdir : Vector4F) (t0 t1 t2 : Vertex4F) : ℝ :=
  1 - tri_alpha rorg rdir t0 t1 t2 - tri_beta rorg rdir t0 t1 t2

/-- Embeds linear.rs intersect_ray_triangle.  The local let-bound values of
the source (dot, t, p, u/v projections, temp, alpha, beta, gamma) are the
named definitions tri_dot, tri_t_num, tri_p, tri_uv, tri_temp, tri_alpha,
tri_beta, tri_gamma above; each guard is the source's early return.  The
source binds n0, n1 and n2 all to t0.normal (lines 536-538), which is
preserved here verbatim. -/
def intersect_ray_triangle (rorg rdir : Vector4F) (t0 t1 t2 : Vertex4F)
    (min_t : ℝ) : Option Intersection :=
  if ¬(tri_dot rdir t0 t1 t2 < 0) then none
  else if ¬(tri_t_num rorg t0 t1 t2 ≤ 0) then none
  else if ¬(tri_t_num rorg t0 t1 t2 ≥ tri_dot rdir t0 t1 t2 * min_t) then none
  else if ¬(tri_temp rorg rdir t0 t1 t2 ≠ 0) then none
  else if ¬(tri_alpha rorg rdir t0 t1 t2 ≥ 0) then none
  else if ¬(tri_beta rorg rdir t0 t1 t2 ≥ 0) then none
  else if ¬(tri_gamma rorg rdir t0 t1 t2 ≥ 0) then none
  else
    let alpha := tri_alpha rorg rdir t0 t1 t2
    let beta := tri_beta rorg rdir t0 t1 t2
    let gamma := tri_gamma rorg rdir t0 t1 t2
    let n0 := t0.normal
    let n1 := t0.normal
    let n2 := t0.normal
    let normal : Vector4F :=
      ⟨n0.x * alpha + n1.x * beta + n2.x * gamma,
       n0.y * alpha + n1.y * beta + n2.y * gamma,
       n0.z * alpha + n1.z * beta + n2.z * gamma, 1⟩
    some ⟨tri_p rorg rdir t0 t1 t2, normal.normalize, 0, 0,
      Vector4F.new alpha beta gamma, tri_tq rorg rdir t0 t1 t2⟩

/-- The vector e = c - p0 computed in intersect_ray_sphere. -/
def sphere_e (p0 c : Vector4F) : Vector4F := Vector4F.sub c p0

/-- The projection a = e . dnorm computed in intersect_ray_sphere. -/
def sphere_a (p0 d c : Vector4F) : ℝ :=
  Vector4F.dot (sphere_e p0 c) d.normalize

/-- The discriminant k = r*r - le*le + a*a computed in intersect_ray_sphere. -/
def sphere_k (p0 d c : Vector4F) (r : ℝ) : ℝ :=
  r * r - (sphere_e p0 c).len * (sphere_e p0 c).len +
    sphere_a p0 d c * sphere_a p0 d c

/-- The near root t = a - sqrt k computed in intersect_ray_sphere. -/
def sphere_t (p0 d c : Vector4F) (r : ℝ) : ℝ :=
  sphere_a p0 d c - Real.sqrt (sphere_k p0 d c r)

/-- Embeds linear.rs intersect_ray_sphere.  The ray direction is normalized
first, so the returned ray_t is measured along the normalized direction. -/
def intersect_ray_sphere (p0 d c : Vector4F) (r min_t : ℝ) :
    Option Intersection :=
  let k := sphere_k p0 d c r
  if k < 0 then none
  else
    let f := Real.sqrt k
    if f < 0 then none
    else
      let t := sphere_a p0 d c - f
      if t ≤ 0 ∨ t > min_t then none
      else
        let dnorm := d.normalize
        let point : Vector4F := ⟨p0.x + dnorm.x * t, p0.y + dnorm.y * t,
                                 p0.z + dnorm.z * t, 1⟩
        let normal := (Vector4F.sub point c).normalize
        some ⟨point, normal, 0, 0, ⟨0, 0, 0, 1⟩, t⟩

/-- Embeds linear.rs ray_intersects_aabb (slab method).  The mutable swap of
the source is rendered as a pair; the z-axis update of tmin and tmax is
commented out in the source and therefore absent here as well.  Note the
source has no check against tmax being negative. -/
def ray_intersects_aabb (rorg rdir mn mx : Vector4F) : Bool :=
  let tx :=
    if (mn.x - rorg.x) / rdir.x > (mx.x - rorg.x) / rdir.x then
      ((mx.x - rorg.x) / rdir.x, (mn.x - rorg.x) / rdir.x)
    else
      ((mn.x - rorg.x) / rdir.x, (mx.x - rorg.x) / rdir.x)
  let ty :=
    if (mn.y - rorg.y) / rdir.y > (mx.y - rorg.y) / rdir.y then
      ((mx.y - rorg.y) / rdir.y, (mn.y - rorg.y) / rdir.y)
    else
      ((mn.y - rorg.y) / rdir.y, (mx.y - rorg.y) / rdir.y)
  if tx.1 > ty.2 ∨ ty.1 > tx.2 then false
  else
    let tmin := if ty.1 > tx.1 then ty.1 else tx.1
    let tmax := if ty.2 < tx.2 then ty.2 else tx.2
    let tz :=
      if (mn.z - rorg.z) / rdir.z > (mx.z - rorg.z) / rdir.z then
        ((mx.z - rorg.z) / rdir.z, (mn.z - rorg.z) / rdir.z)
      else
        ((mn.z - rorg.z) / rdir.z, (mx.z - rorg.z) / rdir.z)
    if tmin > tz.2 ∨ tz.1 > tmax then false
    else true

/-- Spec-side definition of the slab method (section 4.1 and the glossary):
the lower end of the intersection of the three per-axis slab intervals. -/
def slab_lo (rorg rdir mn mx : Vector4F) : ℝ :=
  max (min ((mn.x - rorg.x) / rdir.x) ((mx.x - rorg.x) / rdir.x))
    (max (min ((mn.y - rorg.y) / rdir.y) ((mx.y - rorg.y) / rdir.y))
      (min ((mn.z - rorg.z) / rdir.z) ((mx.z - rorg.z) / rdir.z)))

/-- Spec-side definition of the slab method: the upper end of the
intersection of the three per-axis slab intervals. -/
def slab_hi (rorg rdir mn mx : Vector4F) : ℝ :=
  min (max ((mn.x - rorg.x) / rdir.x) ((mx.x - rorg.x) / rdir.x))
    (min (max ((mn.y - rorg.y) / rdir.y) ((mx.y - rorg.y) / rdir.y))
      (max ((mn.z - rorg.z) / rdir.z) ((mx.z - rorg.z) / rdir.z)))

/-- Embeds linear.rs aabb_aabb_overlap: early-return chain of separating
comparisons per axis. -/
def aabb_aabb_overlap (min1 max1 min2 max2 : Vector4F) : Bool :=
  if min1.x > max2.x then false
  else if max1.x < min2.x then false
  else if min1.y > max2.y then false
  else if max1.y < min2.y then false
  else if min1.z > max2.z then false
  else if max1.z < min2.z then false
  else true

/-- Embeds linear.rs triangle_to_aabb. -/
def triangle_to_aabb (t1 t2 t3 : Vector4F) : Vector4F × Vector4F :=
  (⟨min (min t1.x t2.x) t3.x, min (min t1.y t2.y) t3.y,
    min (min t1.z t2.z) t3.z, 1⟩,
   ⟨max (max t1.x t2.x) t3.x, max (max t1.y t2.y) t3.y,
    max (max t1.z t2.z) t3.z, 1⟩)

/-- Embeds linear.rs triangle_aabb_overlap. -/
def triangle_aabb_overlap (t1 t2 t3 mn mx : Vector4F) : Bool :=
  aabb_aabb_overlap (triangle_to_aabb t1 t2 t3).1 (triangle_to_aabb t1 t2 t3).2
    mn mx

instance : Inhabited Vector4F := ⟨Vector4F.null⟩

instance : Inhabited Vertex4F :=
  ⟨⟨Vector4F.null, Vector4F.null, 0, 0, Color.black⟩⟩

/-- The mesh shape consumed by octree.rs build_octree: a vertex list plus
triangles as triples of vertex indices (octree.rs reads mesh.vertices and
tuple-indexed mesh.triangles; out-of-range indices, which panic in Rust,
are mapped to defaults and excluded by well-formedness hypotheses). -/
structure OctMesh where
  vertices : List Vertex4F
  triangles : List (ℕ × ℕ × ℕ)

/-- First vertex of triangle i of the mesh, as read by build_octree_rec. -/
def OctMesh.vert1 (mesh : OctMesh) (i : ℕ) : Vertex4F :=
  mesh.vertices.getD (mesh.triangles.getD i (0, 0, 0)).1 default

/-- Second vertex of triangle i of the mesh. -/
def OctMesh.vert2 (mesh : OctMesh) (i : ℕ) : Vertex4F :=
  mesh.vertices.getD (mesh.triangles.getD i (0, 0, 0)).2.1 default

/-- Third vertex of triangle i of the mesh. -/
def OctMesh.vert3 (mesh : OctMesh) (i : ℕ) : Vertex4F :=
  mesh.vertices.getD (mesh.triangles.getD i (0, 0, 0)).2.2 default

/-- Embeds octree.rs OctreeNode. -/
inductive OctreeNode where
  | mk (children : List OctreeNode) (tris : List ℕ) (mn mx : Vector4F)

/-- The children field of an OctreeNode. -/
def OctreeNode.children : OctreeNode → List OctreeNode
  | ⟨c, _, _, _⟩ => c

/-- The tris field of an OctreeNode. -/
def OctreeNode.tris : OctreeNode → List ℕ
  | ⟨_, t, _, _⟩ => t

/-- The min field (box lower corner) of an OctreeNode. -/
def OctreeNode.minB : OctreeNode → Vector4F
  | ⟨_, _, mn, _⟩ => mn

/-- The max field (box upper corner) of an OctreeNode. -/
def OctreeNode.maxB : OctreeNode → Vector4F
  | ⟨_, _, _, mx⟩ => mx

/-- Embeds octree.rs qmin. -/
def qmin (v1 v2 v3 v4 : ℝ) : ℝ := min (min (min v1 v2) v3) v4

/-- Embeds octree.rs qmax. -/
def qmax (v1 v2 v3 v4 : ℝ) : ℝ := max (max (max v1 v2) v3) v4

/-- The eight child octant boxes produced by the subdivision loops of
octree.rs build_octree_rec, in the source's x-outer, y-middle, z-inner
order. -/
def child_boxes (mn mx : Vector4F) : List (Vector4F × Vector4F) :=
  let half_x := (mx.x - mn.x) / 2
  let half_y := (mx.y - mn.y) / 2
  let half_z := (mx.z - mn.z) / 2
  [(Vector4F.new mn.x mn.y mn.z,
    Vector4F.new (mn.x + half_x) (mn.y + half_y) (mn.z + half_z)),
   (Vector4F.new mn.x mn.y (mn.z + half_z),
    Vector4F.new (mn.x + half_x) (mn.y + half_y) (mn.z + half_z + half_z)),
   (Vector4F.new mn.x (mn.y + half_y) mn.z,
    Vector4F.new (mn.x + half_x) (mn.y + half_y + half_y) (mn.z + half_z)),
   (Vector4F.new mn.x (mn.y + half_y) (mn.z + half_z),
    Vector4F.new (mn.x + half_x) (mn.y + half_y + half_y)
      (mn.z + half_z + half_z)),
   (Vector4F.new (mn.x + half_x) mn.y mn.z,
    Vector4F.new (mn.x + half_x + half_x) (mn.y + half_y) (mn.z + half_z)),
   (Vector4F.new (mn.x + half_x) mn.y (mn.z + half_z),
    Vector4F.new (mn.x + half_x + half_x) (mn.y + half_y)
      (mn.z + half_z + half_z)),
   (Vector4F.new (mn.x + half_x) (mn.y + half_y) mn.z,
    Vector4F.new (mn.x + half_x + half_x) (mn.y + half_y + half_y)
      (mn.z + half_z)),
   (Vector4F.new (mn.x + half_x) (mn.y + half_y) (mn.z + half_z),
    Vector4F.new (mn.x + half_x + half_x) (mn.y + half_y + half_y)
      (mn.z + half_z + half_z))]

/-- Embeds octree.rs build_octree_rec.  The Rust function fills the node in
place; here it takes the node's box and returns the finished node.  Internal
nodes keep the empty tris list of OctreeNode::new; the eight children boxes
are enumerated by child_boxes in the source's loop order. -/
def build_octree_rec (mesh : OctMesh) (mn mx : Vector4F) (indexes : List ℕ)
    (depth max_depth : ℕ) : OctreeNode :=
  let tris :=
    if depth > 1 then
      indexes.filter (fun t =>
        triangle_aabb_overlap (mesh.vert1 t).pos (mesh.vert2 t).pos
          (mesh.vert3 t).pos mn mx)
    else indexes
  if hd : depth ≥ max_depth then OctreeNode.mk [] tris mn mx
  else
    OctreeNode.mk
      ((child_boxes mn mx).map (fun cb =>
        build_octree_rec mesh cb.1 cb.2 tris (depth + 1) max_depth))
      [] mn mx
termination_by max_depth - depth
decreasing_by all_goals (simp_wf; omega)

/-- The f64 MAX constant seeding the bounding-box fold in build_octree. -/
def f64_upper : ℝ := 1.7976931348623157e308

/-- The f64 MIN constant seeding the bounding-box fold in build_octree. -/
def f64_lower : ℝ := -1.7976931348623157e308

/-- One iteration of the bounding-box fold at the start of octree.rs
build_octree: widen the accumulator box by the three vertices of
triangle i. -/
def bounds_step (mesh : OctMesh) (acc : Vector4F × Vector4F) (i : ℕ) :
    Vector4F × Vector4F :=
  (⟨qmin acc.1.x (mesh.vert1 i).pos.x (mesh.vert2 i).pos.x
      (mesh.vert3 i).pos.x,
    qmin acc.1.y (mesh.vert1 i).pos.y (mesh.vert2 i).pos.y
      (mesh.vert3 i).pos.y,
    qmin acc.1.z (mesh.vert1 i).pos.z (mesh.vert2 i).pos.z
      (mesh.vert3 i).pos.z, 1⟩,
   ⟨qmax acc.2.x (mesh.vert1 i).pos.x (mesh.vert2 i).pos.x
      (mesh.vert3 i).pos.x,
    qmax acc.2.y (mesh.vert1 i).pos.y (mesh.vert2 i).pos.y
      (mesh.vert3 i).pos.y,
    qmax acc.2.z (mesh.vert1 i).pos.z (mesh.vert2 i).pos.z
      (mesh.vert3 i).pos.z, 1⟩)

/-- The overall mesh bounding box computed by the fold at the start of
octree.rs build_octree. -/
def mesh_bounds (mesh : OctMesh) : Vector4F × Vector4F :=
  (List.range mesh.triangles.length).foldl (bounds_step mesh)
    (⟨f64_upper, f64_upper, f64_upper, 1⟩, ⟨f64_lower, f64_lower, f64_lower, 1⟩)

/-- Embeds octree.rs build_octree: computes the overall bounds, collects all
triangle indices, and recurses from depth 1 with max_depth 6. -/
def build_octree (mesh : OctMesh) : OctreeNode :=
  build_octree_rec mesh (mesh_bounds mesh).1 (mesh_bounds mesh).2
    (List.range mesh.triangles.length) 1 6

/-- Embeds OctreeNode::intersection_candidates together with its recursive
helper intersection_candidates_rec (the output accumulator is rendered as
the returned list). -/
def intersection_candidates (node : OctreeNode) (rorg rdir : Vector4F) :
    List ℕ :=
  match node with
  | ⟨children, tris, mn, mx⟩ =>
    if ray_intersects_aabb rorg rdir mn mx then
      if children.length > 0 then
        (children.attach.map
          (fun c => intersection_candidates c.1 rorg rdir)).flatten
      else tris
    else []
termination_by node
decreasing_by
  simp_wf
  have := List.sizeOf_lt_of_mem c.2
  omega

/-- Spec-side helper: the list of leaf nodes of an octree (nodes reached by
descending through children; a node with no children is a leaf). -/
def OctreeNode.leaves (node : OctreeNode) : List OctreeNode :=
  match node with
  | ⟨children, tris, mn, mx⟩ =>
    if children.length > 0 then
      (children.attach.map (fun c => c.1.leaves)).flatten
    else [⟨children, tris, mn, mx⟩]
termination_by node
decreasing_by
  simp_wf
  have := List.sizeOf_lt_of_mem c.2
  omega

/-- Spec-side helper: membership of a point in an axis-aligned box. -/
def in_box (p mn mx : Vector4F) : Prop :=
  mn.x ≤ p.x ∧ p.x ≤ mx.x ∧ mn.y ≤ p.y ∧ p.y ≤ mx.y ∧ mn.z ≤ p.z ∧ p.z ≤ mx.z

/-- Spec-side helper: the box has its corners ordered on every axis. -/
def box_le (mn mx : Vector4F) : Prop :=
  mn.x ≤ mx.x ∧ mn.y ≤ mx.y ∧ mn.z ≤ mx.z

/-- Spec-side helper: the first box is contained in the second on every
axis. -/
def box_subset (mn1 mx1 mn mx : Vector4F) : Prop :=
  mn.x ≤ mn1.x ∧ mx1.x ≤ mx.x ∧ mn.y ≤ mn1.y ∧ mx1.y ≤ mx.y ∧
    mn.z ≤ mn1.z ∧ mx1.z ≤ mx.z

/-- The PI constant defined in random.rs and shade.rs (a literal, not the
mathematical pi). -/
def PI : ℝ := 3.1415926535897932384626433

/-- The E constant defined in shade.rs. -/
def E : ℝ := 2.718281828459045

/-- Models rand::thread_rng as used by random.rs: an ambient stream of f64
draws consumed sequentially.  Random::new in src/random.rs takes no seed and
carries no state; every call of Random::random_f reads the next value from
the ambient thread-local generator, which this stream-plus-position pair
makes explicit. -/
structure ThreadRng where
  stream : ℕ → ℝ
  pos : ℕ

/-- Embeds Random::random_f: draws the next f64 in 0..1 from thread_rng. -/
def random_f (rng : ThreadRng) : ℝ × ThreadRng :=
  (rng.stream rng.pos, ⟨rng.stream, rng.pos + 1⟩)

/-- Embeds Random::random_point_on_unit_sphere. -/
def random_point_on_unit_sphere (rng : ThreadRng) : Vector4F × ThreadRng :=
  let u := random_f rng
  let v := random_f u.2
  let theta := 2 * PI * u.1
  let phi := Real.arccos (2 * v.1 - 1)
  let sin_phi := Real.sin phi
  (⟨sin_phi * Real.cos theta, sin_phi * Real.sin theta, Real.cos phi, 1⟩, v.2)

/-- Embeds Random::random_point_on_sphere. -/
def random_point_on_sphere (rng : ThreadRng) (pos : Vector4F) (radius : ℝ) :
    Vector4F × ThreadRng :=
  let usp := random_point_on_unit_sphere rng
  (⟨pos.x + radius * usp.1.x, pos.y + radius * usp.1.y,
    pos.z + radius * usp.1.z, 1⟩, usp.2)

/-- Embeds Random::random_point_on_hemisphere. -/
def random_point_on_hemisphere (rng : ThreadRng) (n : Vector4F) :
    Vector4F × ThreadRng :=
  let usp := random_point_on_unit_sphere rng
  let pdotn := Vector4F.dot usp.1 n
  (if pdotn < 0 then usp.1.invert else usp.1, usp.2)

/-- Embeds shade.rs saturate. -/
def saturate (v : ℝ) : ℝ :=
  if v < 0 then 0 else if v > 1 then 1 else v

/-- Embeds shade.rs shade_oren_nayar (the alb parameter is unused in the
source as well). -/
def shade_oren_nayar (l n v : Vector4F) (rough alb : ℝ) : ℝ :=
  let r2 := rough * rough
  let onf_x := r2 / (r2 + 0.33)
  let onf_y := r2 / (r2 + 0.09)
  let on_x := 1 + -0.5 * onf_x
  let on_y := 0 + 0.45 * onf_y
  let ndotl := Vector4F.dot n l
  let ndotv := Vector4F.dot n v
  let ct_x := saturate ndotl
  let ct_y := saturate ndotv
  let ct_x2 := ct_x * ct_x
  let ct_y2 := ct_y * ct_y
  let st := Real.sqrt ((1 - ct_x2) * (1 - ct_y2))
  let lp : Vector4F := ⟨l.x - ct_x * n.x, l.y - ct_x * n.y, l.z - ct_x * n.z, 1⟩
  let vp : Vector4F := ⟨v.x - ct_y * n.x, v.y - ct_y * n.y, v.z - ct_y * n.z, 1⟩
  let cp := saturate (Vector4F.dot lp vp)
  if ct_x = 0 ∨ ct_y = 0 then 0
  else
    let don := cp * st / max ct_x ct_y
    ct_x * (on_x + on_y * don)

/-- Embeds shade.rs beckmann. -/
def beckmann (x rough : ℝ) : ℝ :=
  let ndoth := max x 0.0001
  let cos2alpha := ndoth * ndoth
  let tan2alpha := (cos2alpha - 1) / cos2alpha
  let rough2 := rough * rough
  let denom := PI * rough2 * cos2alpha * cos2alpha
  Real.rpow E (tan2alpha / rough2) / denom

/-- Embeds shade.rs shade_cook_torrance. -/
def shade_cook_torrance (l v n : Vector4F) (rough fresnel : ℝ) : ℝ :=
  let vdotn := max 0 (Vector4F.dot v n)
  let ldotn := max 0 (Vector4F.dot l n)
  let h := Vector4F.half l v
  let ndoth := max 0 (Vector4F.dot n h)
  let vdoth := max 0.000001 (Vector4F.dot v h)
  let x := 2 * ndoth / vdoth
  let g := min 1 (min (x * vdotn) (x * ldotn))
  let d := beckmann ndoth rough
  let f := Real.rpow (1 - vdotn) fresnel
  g * f * d / max (PI * vdotn * ldotn) 0.000001

/-- Embeds settings.rs Material. -/
structure Material where
  id : String
  color : Color
  reflect : ℝ
  refract : ℝ
  ior : ℝ
  roughness : ℝ

/-- Embeds settings.rs Sphere. -/
structure Sphere where
  center : Vector4F
  radius : ℝ
  material : String

instance : Inhabited Sphere := ⟨⟨Vector4F.null, 0, ""⟩⟩

/-- Embeds settings.rs Triangle. -/
structure Triangle where
  v1 : Vertex4F
  v2 : Vertex4F
  v3 : Vertex4F

/-- Embeds settings.rs Mesh (with the octree field; trace iterates the
triangle list directly). -/
structure Mesh where
  triangles : List Triangle
  translation : Vector4F
  rotation : Vector4F
  scale : Vector4F
  material : String
  octree : OctreeNode

instance : Inhabited Mesh :=
  ⟨⟨[], Vector4F.null, Vector4F.null, Vector4F.null, "",
    OctreeNode.mk [] [] Vector4F.null Vector4F.null⟩⟩

/-- Embeds settings.rs LightType. -/
inductive LightType where
  | Point
  | Sphere

/-- Embeds settings.rs Light (samples is a u32 count). -/
structure Light where
  ltype : LightType
  position : Vector4F
  color : Color
  visible : Bool
  radius : ℝ
  samples : ℕ
  intensity : ℝ

/-- Embeds settings.rs Scene (the voxels field is omitted: trace in main.rs
never reads it; path_samples is kept for fidelity though trace ignores it). -/
structure Scene where
  materials : List Material
  spheres : List Sphere
  meshes : List Mesh
  lights : List Light
  skycolor : Color
  max_depth : ℕ
  path_samples : ℕ

/-- Modelled from the spec: the boolean shadow tests
linear::ray_intersects_sphere and linear::ray_intersects_triangle called by
trace in main.rs are not present in src/linear.rs (only their call sites
exist).  The spec says only that they decide whether a scene object occludes
the shadow ray, so the embedding takes them as opaque boolean-test
parameters. -/
structure OccTests where
  ray_intersects_sphere : Vector4F → Vector4F → Vector4F → ℝ → Bool
  ray_intersects_triangle :
    Vector4F → Vector4F → Vertex4F → Vertex4F → Vertex4F → Bool

/-- Models the Rust cast from i32 to usize (sign extension into 2^64). -/
def i32_as_usize (i : Int) : ℕ := (i % (2 ^ 64 : Int)).toNat

/-- Embeds main.rs find_material logic (lines 298-304): first material whose
id equals the name, scanning in order. -/
def find_material (materials : List Material) (mat_name : String) :
    Option Material :=
  materials.find? (fun mat => mat.id = mat_name)

/-- Embeds the shadow-occlusion loops of trace (main.rs lines 317-334 for
point lights, 345-362 for sphere-light samples): a sphere occludes only if
its index differs from closest_sp_index cast to usize; every mesh triangle
is tested. -/
def shadow_ray_blocked (spheres : List Sphere) (meshes : List Mesh)
    (closest_sp_index : Int) (pos dir : Vector4F) (occ : OccTests) : Bool :=
  ((List.range spheres.length).any (fun l =>
    if l ≠ i32_as_usize closest_sp_index then
      let ssp := spheres.getD l default
      occ.ray_intersects_sphere pos dir ssp.center ssp.radius
    else false)) ||
  (meshes.any (fun m => m.triangles.any (fun t =>
    occ.ray_intersects_triangle pos dir t.v1 t.v2 t.v3)))

/-- Embeds main.rs lines 314-336: the visibility intensity of a point light,
0.0 if the shadow ray is blocked and 1.0 otherwise. -/
def point_light_intensity (spheres : List Sphere) (meshes : List Mesh)
    (closest_sp_index : Int) (pos ldir : Vector4F) (occ : OccTests) : ℝ :=
  if shadow_ray_blocked spheres meshes closest_sp_index pos ldir occ then 0
  else 1

/-- Embeds the sphere-light sampling loop of trace (main.rs lines 341-367):
counts unoccluded samples, threading the random generator. -/
def sphere_light_samples (spheres : List Sphere) (meshes : List Mesh)
    (closest_sp_index : Int) (pos lightpos : Vector4F) (radius : ℝ)
    (occ : OccTests) : ℕ → ThreadRng → ℝ × ThreadRng
  | 0, rng => (0, rng)
  | n + 1, rng =>
    let rp := random_point_on_sphere rng lightpos radius
    let sample_dir := Vector4F.sub rp.1 pos
    let blocked :=
      shadow_ray_blocked spheres meshes closest_sp_index pos sample_dir occ
    let rest :=
      sphere_light_samples spheres meshes closest_sp_index pos lightpos radius
        occ n rp.2
    (rest.1 + (if blocked then 0 else 1), rest.2)

/-- Embeds the nearest-hit search of trace (main.rs lines 232-282): the
sphere loop followed by the mesh-triangle loop, threading
(closest, closest_sp_index, closest_mesh_index, min_t) with min_t starting
at 9999999999.99. -/
def trace_closest (scene : Scene) (rorg rdir : Vector4F) :
    Option Intersection × Int × Int × ℝ :=
  let s := (List.range scene.spheres.length).foldl
    (fun acc i =>
      let sphere := scene.spheres.getD i default
      match intersect_ray_sphere rorg rdir sphere.center sphere.radius
        acc.2.2.2 with
      | some inter =>
        if inter.ray_t < acc.2.2.2 then
          (some inter, (i : Int), acc.2.2.1, inter.ray_t)
        else acc
      | none => acc)
    ((none : Option Intersection), (-1 : Int), (-1 : Int),
      (9999999999.99 : ℝ))
  (List.range scene.meshes.length).foldl
    (fun acc i =>
      let mesh := scene.meshes.getD i default
      mesh.triangles.foldl
        (fun acc2 tri =>
          match intersect_ray_triangle rorg rdir tri.v1 tri.v2 tri.v3
            acc2.2.2.2 with
          | some inter =>
            if inter.ray_t < acc2.2.2.2 then
              (some inter, (-1 : Int), (i : Int), inter.ray_t)
            else acc2
          | none => acc2)
        acc)
    s

/-- Embeds main.rs lines 394-396: the indirect-lighting accumulation into
lcolor.  All three channels add path_color.r * shading: the source reads the
red channel of the recursively traced color for green and blue as well. -/
def indirect_accum (lcolor path_color : Color) (shading : ℝ) : Color :=
  ⟨lcolor.r + path_color.r * shading,
   lcolor.g + path_color.r * shading,
   lcolor.b + path_color.r * shading⟩

/-- Embeds main.rs trace.  The recursion is cut off by the guard
depth > scene.max_depth returning black; each recursive call passes
depth + 1, so the recursion is well-founded on max_depth + 1 - depth. -/
def trace (occ : OccTests) (ray_org ray_dir : Vector4F) (scene : Scene)
    (rng : ThreadRng) (depth : ℕ) : Color × ThreadRng :=
  if _hterm : depth > scene.max_depth then (Color.black, rng)
  else
    let cl := trace_closest scene ray_org ray_dir
    match cl.1 with
    | none => (⟨scene.skycolor.r, scene.skycolor.g, scene.skycolor.b⟩, rng)
    | some inter =>
      let closest_sp_index := cl.2.1
      let closest_mesh_index := cl.2.2.1
      let vdir := (Vector4F.sub ray_org inter.pos).normalize
      let mat_name :=
        if closest_sp_index ≥ 0 then
          (scene.spheres.getD (i32_as_usize closest_sp_index) default).material
        else if closest_mesh_index ≥ 0 then
          (scene.meshes.getD (i32_as_usize closest_mesh_index) default).material
        else ""
      match find_material scene.materials mat_name with
      | none => (⟨0, 0, 0⟩, rng)
      | some mat =>
        let lc := scene.lights.foldl
          (fun (acc : Color × ThreadRng) light =>
            let ldir := (Vector4F.sub light.position inter.pos).normalize
            let li : ℝ × ThreadRng :=
              match light.ltype with
              | LightType.Point =>
                (point_light_intensity scene.spheres scene.meshes
                  closest_sp_index inter.pos ldir occ, acc.2)
              | LightType.Sphere =>
                let sl := sphere_light_samples scene.spheres scene.meshes
                  closest_sp_index inter.pos light.position light.radius occ
                  light.samples acc.2
                (sl.1 / (light.samples : ℝ), sl.2)
            let ldist := (Vector4F.sub light.position inter.pos).len
            let ratio := light.radius / ldist
            let light_intens := ratio * ratio * li.1 * light.intensity
            let diffuse := shade_oren_nayar ldir inter.normal vdir
              mat.roughness 0.01
            let specular := shade_cook_torrance ldir vdir inter.normal
              mat.roughness 0.01
            let shading := diffuse + specular
            let light_total := shading * light_intens
            (⟨acc.1.r + light.color.r * light_total,
              acc.1.g + light.color.g * light_total,
              acc.1.b + light.color.b * light_total⟩, li.2))
          (Color.black, rng)
        let pd := random_point_on_hemisphere lc.2 inter.normal
        let path_dir := pd.1.normalize
        let pc := trace occ inter.pos path_dir scene pd.2 (depth + 1)
        let diffuse := shade_oren_nayar path_dir inter.normal vdir
          mat.roughness 0.01
        let specular := shade_cook_torrance path_dir vdir inter.normal
          mat.roughness 0.01
        let shading := diffuse + specular
        let lcolor := indirect_accum lc.1 pc.1 shading
        (⟨mat.color.r * lcolor.r, mat.color.g * lcolor.g,
          mat.color.b * lcolor.b⟩, pc.2)
termination_by scene.max_depth + 1 - depth
decreasing_by simp_wf; omega

/-- Models f64::round for the non-negative range produced by convert (round
half away from zero coincides with floor of x + 1/2 for x at least 0). -/
def rust_round (x : ℝ) : ℤ := ⌊x + 1 / 2⌋

/-- Embeds main.rs convert: dither by a uniform value in [-1,1] scaled by
1/512, clamp to [0,1], scale to [0,255] and round.  The final `as u8` cast
is the identity on the clamped range 0..255. -/
def convert (v : ℝ) (rng : ThreadRng) : ℤ × ThreadRng :=
  let r0 := random_f rng
  let r := r0.1 * 2 - 1
  let result := v + r * (1 / 512)
  let clamped : ℝ := if result < 0 then 0 else if result > 1 then 1 else result
  (rust_round (clamped * 255), r0.2)

/-- Embeds the final conversion step of main.rs lines 196-201: each channel
is divided by samplef = (samplesi + 1) before convert, one more than the
number of accumulated sample passes. -/
def final_channel_byte (accumulated : ℝ) (samplesi : ℕ) (rng : ThreadRng) :
    ℤ × ThreadRng :=
  convert (accumulated / ((samplesi : ℝ) + 1)) rng

/-- Spec-side definition: the conversion the claim describes, dividing by
the number of accumulated sample passes itself. -/
def final_channel_byte_spec (accumulated : ℝ) (samplesi : ℕ)
    (rng : ThreadRng) : ℤ × ThreadRng :=
  convert (accumulated / (samplesi : ℝ)) rng

end

/-- C10: the assertion t >= 0.0 inside intersect_ray_triangle never fails.
Control reaches the assertion exactly when the three guards before it passed:
the denominator tri_dot is strictly negative, the numerator tri_t_num is
non-positive, and tri_t_num >= tri_dot * min_t.  Under these guards the
quotient assigned to t is non-negative. -/
theorem c10_triangle_assert_nonneg (rorg rdir : Vector4F) (t0 t1 t2 : Vertex4F)
    (min_t : ℝ)
    (h1 : tri_dot rdir t0 t1 t2 < 0)
    (h2 : tri_t_num rorg t0 t1 t2 ≤ 0)
    (h3 : tri_t_num rorg t0 t1 t2 ≥ tri_dot rdir t0 t1 t2 * min_t) :
    0 ≤ tri_t_num rorg t0 t1 t2 / tri_dot rdir t0 t1 t2 :=
  div_nonneg_of_nonpos h2 h1.le

/-- Witness for C10 at a concrete input: triangle (0,0,0), (2,0,0), (0,2,0)
with ray origin (0.25, 0.25, 1) and direction (0,0,-1). -/
theorem c10_triangle_assert_nonneg_witness :
    tri_dot ⟨0, 0, -1, 0⟩
        ⟨Vector4F.new 0 0 0, Vector4F.new 0 0 1, 0, 0, Color.black⟩
        ⟨Vector4F.new 2 0 0, Vector4F.new 0 0 1, 0, 0, Color.black⟩
        ⟨Vector4F.new 0 2 0, Vector4F.new 0 0 1, 0, 0, Color.black⟩ < 0 ∧
    tri_t_num ⟨0.25, 0.25, 1, 1⟩
        ⟨Vector4F.new 0 0 0, Vector4F.new 0 0 1, 0, 0, Color.black⟩
        ⟨Vector4F.new 2 0 0, Vector4F.new 0 0 1, 0, 0, Color.black⟩
        ⟨Vector4F.new 0 2 0, Vector4F.new 0 0 1, 0, 0, Color.black⟩ ≤ 0 ∧
    0 ≤ tri_t_num ⟨0.25, 0.25, 1, 1⟩
        ⟨Vector4F.new 0 0 0, Vector4F.new 0 0 1, 0, 0, Color.black⟩
        ⟨Vector4F.new 2 0 0, Vector4F.new 0 0 1, 0, 0, Color.black⟩
        ⟨Vector4F.new 0 2 0, Vector4F.new 0 0 1, 0, 0, Color.black⟩ /
      tri_dot ⟨0, 0, -1, 0⟩
        ⟨Vector4F.new 0 0 0, Vector4F.new 0 0 1, 0, 0, Color.black⟩
        ⟨Vector4F.new 2 0 0, Vector4F.new 0 0 1, 0, 0, Color.black⟩
        ⟨Vector4F.new 0 2 0, Vector4F.new 0 0 1, 0, 0, Color.black⟩ := by
  refine ⟨?_, ?_, ?_⟩
  · norm_num [tri_dot, tri_n, Vector4F.dot, Vector4F.cross, Vector4F.sub, Vector4F.new]
  · norm_num [tri_t_num, tri_n, Vector4F.dot, Vector4F.cross, Vector4F.sub, Vector4F.new]
  · exact c10_triangle_assert_nonneg _ _ _ _ _ 1000
      (by norm_num [tri_dot, tri_n, Vector4F.dot, Vector4F.cross, Vector4F.sub, Vector4F.new])
      (by norm_num [tri_t_num, tri_n, Vector4F.dot, Vector4F.cross, Vector4F.sub, Vector4F.new])
      (by norm_num [tri_t_num, tri_dot, tri_n, Vector4F.dot, Vector4F.cross, Vector4F.sub, Vector4F.new])

/-- C3 (amended): intersect_ray_sphere returns None exactly when the
discriminant sphere_k is negative or the near root sphere_t is non-positive
or exceeds min_t; on Some, the normal is normalize(pos - c) and the returned
pos equals p0 + normalize(d) * ray_t (the source normalizes d first, so
ray_t is measured along the unit direction, not along d itself). -/
theorem c3_sphere_intersect_spec (p0 d c : Vector4F) (r min_t : ℝ)
    (hd : 0 < d.sqr_len) :
    ((intersect_ray_sphere p0 d c r min_t = none) ↔
      (sphere_k p0 d c r < 0 ∨ sphere_t p0 d c r ≤ 0 ∨
        sphere_t p0 d c r > min_t)) ∧
    (∀ inter : Intersection,
      intersect_ray_sphere p0 d c r min_t = some inter →
      inter.normal = (Vector4F.sub inter.pos c).normalize ∧
      inter.pos = point_on_ray p0 d.normalize inter.ray_t ∧
      inter.ray_t = sphere_t p0 d c r) := by
  clear hd
  constructor
  · simp only [intersect_ray_sphere]
    split_ifs with hk hf ht
    · exact iff_of_true rfl (Or.inl hk)
    · exact absurd hf (not_lt.mpr (Real.sqrt_nonneg _))
    · refine iff_of_true rfl (Or.inr ?_)
      rw [sphere_t]
      exact ht
    · refine iff_of_false (by simp) ?_
      rw [sphere_t]
      push_neg at ht ⊢
      exact ⟨not_lt.mp hk, ht.1, ht.2⟩
  · intro inter h
    simp only [intersect_ray_sphere] at h
    split_ifs at h with hk hf ht
    injection h with h2
    subst h2
    refine ⟨rfl, ?_, ?_⟩
    · simp [point_on_ray, Vector4F.new]
    · rw [sphere_t]

/-- Witness for C3 at the concrete sphere (center (3,0,0), radius 1), ray
origin (0,0,0), direction (2,0,0), min_t = 10. -/
theorem c3_sphere_intersect_spec_witness :
    0 < Vector4F.sqr_len ⟨2, 0, 0, 0⟩ ∧
    (((intersect_ray_sphere ⟨0, 0, 0, 1⟩ ⟨2, 0, 0, 0⟩ ⟨3, 0, 0, 1⟩ 1 10 = none) ↔
      (sphere_k ⟨0, 0, 0, 1⟩ ⟨2, 0, 0, 0⟩ ⟨3, 0, 0, 1⟩ 1 < 0 ∨
        sphere_t ⟨0, 0, 0, 1⟩ ⟨2, 0, 0, 0⟩ ⟨3, 0, 0, 1⟩ 1 ≤ 0 ∨
        sphere_t ⟨0, 0, 0, 1⟩ ⟨2, 0, 0, 0⟩ ⟨3, 0, 0, 1⟩ 1 > 10)) ∧
    (∀ inter : Intersection,
      intersect_ray_sphere ⟨0, 0, 0, 1⟩ ⟨2, 0, 0, 0⟩ ⟨3, 0, 0, 1⟩ 1 10 = some inter →
      inter.normal = (Vector4F.sub inter.pos ⟨3, 0, 0, 1⟩).normalize ∧
      inter.pos = point_on_ray ⟨0, 0, 0, 1⟩ (Vector4F.normalize ⟨2, 0, 0, 0⟩) inter.ray_t ∧
      inter.ray_t = sphere_t ⟨0, 0, 0, 1⟩ ⟨2, 0, 0, 0⟩ ⟨3, 0, 0, 1⟩ 1)) :=
  ⟨by norm_num [Vector4F.sqr_len],
   c3_sphere_intersect_spec ⟨0, 0, 0, 1⟩ ⟨2, 0, 0, 0⟩ ⟨3, 0, 0, 1⟩ 1 10
     (by norm_num [Vector4F.sqr_len])⟩

/-- C3 counterexample to the claim as stated: at sphere center (3,0,0),
radius 1, ray origin (0,0,0), direction (2,0,0) (length 2), the hit has
ray_t = 2 and pos = (2,0,0), yet origin + direction * ray_t = (4,0,0), so
pos is not p0 + d * ray_t when d is not unit length. -/
theorem c3_counterexample :
    (intersect_ray_sphere ⟨0, 0, 0, 1⟩ ⟨2, 0, 0, 0⟩ ⟨3, 0, 0, 1⟩ 1 10).map
        Intersection.pos = some ⟨2, 0, 0, 1⟩ ∧
    (intersect_ray_sphere ⟨0, 0, 0, 1⟩ ⟨2, 0, 0, 0⟩ ⟨3, 0, 0, 1⟩ 1 10).map
        Intersection.ray_t = some 2 ∧
    point_on_ray ⟨0, 0, 0, 1⟩ ⟨2, 0, 0, 0⟩ 2 ≠ ⟨2, 0, 0, 1⟩ := by
  have h4 : Real.sqrt 4 = 2 := by
    rw [show (4 : ℝ) = 2 * 2 by norm_num, Real.sqrt_mul_self (by norm_num)]
  have h9 : Real.sqrt 9 = 3 := by
    rw [show (9 : ℝ) = 3 * 3 by norm_num, Real.sqrt_mul_self (by norm_num)]
  have hlen : Vector4F.len ⟨2, 0, 0, 0⟩ = 2 := by
    rw [Vector4F.len]
    norm_num [Vector4F.sqr_len, h4]
  have hdn : Vector4F.normalize ⟨2, 0, 0, 0⟩ = ⟨1, 0, 0, 0⟩ := by
    rw [Vector4F.normalize, hlen]
    norm_num
  have he : sphere_e ⟨0, 0, 0, 1⟩ ⟨3, 0, 0, 1⟩ = ⟨3, 0, 0, 0⟩ := by
    norm_num [sphere_e, Vector4F.sub]
  have hle : Vector4F.len ⟨3, 0, 0, 0⟩ = 3 := by
    rw [Vector4F.len]
    norm_num [Vector4F.sqr_len, h9]
  have ha : sphere_a ⟨0, 0, 0, 1⟩ ⟨2, 0, 0, 0⟩ ⟨3, 0, 0, 1⟩ = 3 := by
    rw [sphere_a, he, hdn]
    norm_num [Vector4F.dot]
  have hk : sphere_k ⟨0, 0, 0, 1⟩ ⟨2, 0, 0, 0⟩ ⟨3, 0, 0, 1⟩ 1 = 1 := by
    rw [sphere_k, he, hle, ha]
    norm_num
  refine ⟨?_, ?_, ?_⟩
  · simp only [intersect_ray_sphere, hk, ha, hdn]
    norm_num [Real.sqrt_one, Vector4F.mk.injEq]
  · simp only [intersect_ray_sphere, hk, ha, hdn]
    norm_num [Real.sqrt_one]
  · simp only [point_on_ray, Vector4F.new, ne_eq, Vector4F.mk.injEq]
    norm_num

/-- Helper: the conditional swap of the source equals the sorted pair. -/
theorem swap_pair_eq (a b : ℝ) :
    (if a > b then (b, a) else (a, b)) = (min a b, max a b) := by
  rcases le_or_lt a b with h | h
  · rw [if_neg (not_lt.mpr h), min_eq_left h, max_eq_right h]
  · rw [if_pos h, min_eq_right h.le, max_eq_left h.le]

/-- Helper: taking the larger of two values via the source's if. -/
theorem pick_max (a b : ℝ) : (if b > a then b else a) = max a b := by
  rcases le_or_lt b a with h | h
  · rw [if_neg (not_lt.mpr h), max_eq_left h]
  · rw [if_pos h, max_eq_right h.le]

/-- Helper: taking the smaller of two values via the source's if. -/
theorem pick_min (a b : ℝ) : (if b < a then b else a) = min a b := by
  rcases le_or_lt a b with h | h
  · rw [if_neg (not_lt.mpr h), min_eq_left h]
  · rw [if_pos h, min_eq_right h.le]

/-- Helper: ray_intersects_aabb holds exactly when the intersection of the
three per-axis slab intervals is non-empty. -/
theorem raib_iff_slab (rorg rdir mn mx : Vector4F) :
    ray_intersects_aabb rorg rdir mn mx = true ↔
      slab_lo rorg rdir mn mx ≤ slab_hi rorg rdir mn mx := by
  simp only [ray_intersects_aabb, slab_lo, slab_hi, swap_pair_eq, pick_max,
    pick_min]
  set a1 := min ((mn.x - rorg.x) / rdir.x) ((mx.x - rorg.x) / rdir.x)
  set b1 := max ((mn.x - rorg.x) / rdir.x) ((mx.x - rorg.x) / rdir.x)
  set a2 := min ((mn.y - rorg.y) / rdir.y) ((mx.y - rorg.y) / rdir.y)
  set b2 := max ((mn.y - rorg.y) / rdir.y) ((mx.y - rorg.y) / rdir.y)
  set a3 := min ((mn.z - rorg.z) / rdir.z) ((mx.z - rorg.z) / rdir.z)
  set b3 := max ((mn.z - rorg.z) / rdir.z) ((mx.z - rorg.z) / rdir.z)
  have hab1 : a1 ≤ b1 := min_le_max
  have hab2 : a2 ≤ b2 := min_le_max
  have hab3 : a3 ≤ b3 := min_le_max
  split_ifs with h1 h2
  · refine iff_of_false (by simp) (not_le.mpr ?_)
    rcases h1 with h | h
    · have k1 : min b1 (min b2 b3) ≤ b2 := le_trans (min_le_right _ _) (min_le_left _ _)
      have k2 : a1 ≤ max a1 (max a2 a3) := le_max_left _ _
      linarith
    · have k1 : min b1 (min b2 b3) ≤ b1 := min_le_left _ _
      have k2 : a2 ≤ max a1 (max a2 a3) := le_max_of_le_right (le_max_left _ _)
      linarith
  · refine iff_of_false (by simp) (not_le.mpr ?_)
    rcases h2 with h | h
    · have k1 : min b1 (min b2 b3) ≤ b3 := le_trans (min_le_right _ _) (min_le_right _ _)
      have k2 : max a1 a2 ≤ max a1 (max a2 a3) :=
        max_le (le_max_left _ _) (le_max_of_le_right (le_max_left _ _))
      linarith
    · have k1 : min b1 (min b2 b3) ≤ min b1 b2 :=
        le_min (min_le_left _ _) (le_trans (min_le_right _ _) (min_le_left _ _))
      have k2 : a3 ≤ max a1 (max a2 a3) := le_max_of_le_right (le_max_right _ _)
      linarith
  · push_neg at h1 h2
    have hx1 : a1 ≤ b3 := (max_le_iff.mp h2.1).1
    have hx2 : a2 ≤ b3 := (max_le_iff.mp h2.1).2
    have hx3 : a3 ≤ b1 := (le_min_iff.mp h2.2).1
    have hx4 : a3 ≤ b2 := (le_min_iff.mp h2.2).2
    refine iff_of_true rfl ?_
    simp only [max_le_iff, le_min_iff]
    have j1 := h1.1
    have j2 := h1.2
    tauto

/-- C8 (amended): ray_intersects_aabb returns true exactly when the
intersection of the three per-axis slab intervals is non-empty; the source
performs no check against the interval lying behind the ray origin, so boxes
entirely at negative t still return true. -/
theorem c8_slab_characterization (rorg rdir mn mx : Vector4F) :
    ray_intersects_aabb rorg rdir mn mx = true ↔
      slab_lo rorg rdir mn mx ≤ slab_hi rorg rdir mn mx :=
  raib_iff_slab rorg rdir mn mx

/-- C8 counterexample to the claim as stated: the box [-2,-1]^3 seen from the
origin along direction (1,1,1) has its whole slab interval at negative t
(slab_hi = -1 < 0), yet ray_intersects_aabb returns true because the source
never rejects boxes behind the ray origin. -/
theorem c8_counterexample :
    slab_hi ⟨0, 0, 0, 1⟩ ⟨1, 1, 1, 0⟩ ⟨-2, -2, -2, 1⟩ ⟨-1, -1, -1, 1⟩ < 0 ∧
    ray_intersects_aabb ⟨0, 0, 0, 1⟩ ⟨1, 1, 1, 0⟩ ⟨-2, -2, -2, 1⟩
      ⟨-1, -1, -1, 1⟩ = true := by
  constructor
  · norm_num [slab_hi, min_def, max_def]
  · norm_num [ray_intersects_aabb]

/-- Spec-side definition (section 4.1 of the spec): the barycentric
interpolation of the three vertex normals of the triangle, normalized. -/
noncomputable def interpolated_normal (t0 t1 t2 : Vertex4F)
    (alpha beta gamma : ℝ) : Vector4F :=
  (⟨t0.normal.x * alpha + t1.normal.x * beta + t2.normal.x * gamma,
    t0.normal.y * alpha + t1.normal.y * beta + t2.normal.y * gamma,
    t0.normal.z * alpha + t1.normal.z * beta + t2.normal.z * gamma,
    1⟩ : Vector4F).normalize

/-- C7: failing-input evaluation.  Triangle (0,0,0), (2,0,0), (0,2,0) with
vertex normals (0,0,1), (1,0,0), (0,1,0); the ray from (0.25,0.25,1) along
(0,0,-1) hits with barycentric weights (0.125, 0.125, 0.75), yet the
returned normal is (0,0,1) (the source binds all three normals to
t0.normal), while the barycentric interpolation of the three distinct
vertex normals is a different vector. -/
theorem c7_normal_ignores_vertex_normals :
    (intersect_ray_triangle ⟨0.25, 0.25, 1, 1⟩ ⟨0, 0, -1, 0⟩
        ⟨Vector4F.new 0 0 0, Vector4F.new 0 0 1, 0, 0, Color.black⟩
        ⟨Vector4F.new 2 0 0, Vector4F.new 1 0 0, 0, 0, Color.black⟩
        ⟨Vector4F.new 0 2 0, Vector4F.new 0 1 0, 0, 0, Color.black⟩
        1000).map Intersection.normal = some ⟨0, 0, 1, 1⟩ ∧
    (intersect_ray_triangle ⟨0.25, 0.25, 1, 1⟩ ⟨0, 0, -1, 0⟩
        ⟨Vector4F.new 0 0 0, Vector4F.new 0 0 1, 0, 0, Color.black⟩
        ⟨Vector4F.new 2 0 0, Vector4F.new 1 0 0, 0, 0, Color.black⟩
        ⟨Vector4F.new 0 2 0, Vector4F.new 0 1 0, 0, 0, Color.black⟩
        1000).map Intersection.barycentric = some ⟨0.125, 0.125, 0.75, 1⟩ ∧
    interpolated_normal
        ⟨Vector4F.new 0 0 0, Vector4F.new 0 0 1, 0, 0, Color.black⟩
        ⟨Vector4F.new 2 0 0, Vector4F.new 1 0 0, 0, 0, Color.black⟩
        ⟨Vector4F.new 0 2 0, Vector4F.new 0 1 0, 0, 0, Color.black⟩
        0.125 0.125 0.75 ≠ ⟨0, 0, 1, 1⟩ := by
  have hn : tri_n
      ⟨Vector4F.new 0 0 0, Vector4F.new 0 0 1, 0, 0, Color.black⟩
      ⟨Vector4F.new 2 0 0, Vector4F.new 1 0 0, 0, 0, Color.black⟩
      ⟨Vector4F.new 0 2 0, Vector4F.new 0 1 0, 0, 0, Color.black⟩ =
      ⟨0, 0, 4, 1⟩ := by
    norm_num [tri_n, Vector4F.cross, Vector4F.sub, Vector4F.new]
  have htn : tri_t_num ⟨0.25, 0.25, 1, 1⟩
      ⟨Vector4F.new 0 0 0, Vector4F.new 0 0 1, 0, 0, Color.black⟩
      ⟨Vector4F.new 2 0 0, Vector4F.new 1 0 0, 0, 0, Color.black⟩
      ⟨Vector4F.new 0 2 0, Vector4F.new 0 1 0, 0, 0, Color.black⟩ = -4 := by
    rw [tri_t_num, hn]
    norm_num [Vector4F.dot, Vector4F.new]
  have hdot : tri_dot ⟨0, 0, -1, 0⟩
      ⟨Vector4F.new 0 0 0, Vector4F.new 0 0 1, 0, 0, Color.black⟩
      ⟨Vector4F.new 2 0 0, Vector4F.new 1 0 0, 0, 0, Color.black⟩
      ⟨Vector4F.new 0 2 0, Vector4F.new 0 1 0, 0, 0, Color.black⟩ = -4 := by
    rw [tri_dot, hn]
    norm_num [Vector4F.dot]
  have htq : tri_tq ⟨0.25, 0.25, 1, 1⟩ ⟨0, 0, -1, 0⟩
      ⟨Vector4F.new 0 0 0, Vector4F.new 0 0 1, 0, 0, Color.black⟩
      ⟨Vector4F.new 2 0 0, Vector4F.new 1 0 0, 0, 0, Color.black⟩
      ⟨Vector4F.new 0 2 0, Vector4F.new 0 1 0, 0, 0, Color.black⟩ = 1 := by
    rw [tri_tq, htn, hdot]
    norm_num
  have hp : tri_p ⟨0.25, 0.25, 1, 1⟩ ⟨0, 0, -1, 0⟩
      ⟨Vector4F.new 0 0 0, Vector4F.new 0 0 1, 0, 0, Color.black⟩
      ⟨Vector4F.new 2 0 0, Vector4F.new 1 0 0, 0, 0, Color.black⟩
      ⟨Vector4F.new 0 2 0, Vector4F.new 0 1 0, 0, 0, Color.black⟩ = ⟨0.25, 0.25, 0, 1⟩ := by
    rw [tri_p, htq]
    norm_num [Vector4F.mk.injEq]
  have h4abs : |(4 : ℝ)| = 4 := abs_of_nonneg (by norm_num)
  have huv : tri_uv ⟨0.25, 0.25, 1, 1⟩ ⟨0, 0, -1, 0⟩
      ⟨Vector4F.new 0 0 0, Vector4F.new 0 0 1, 0, 0, Color.black⟩
      ⟨Vector4F.new 2 0 0, Vector4F.new 1 0 0, 0, 0, Color.black⟩
      ⟨Vector4F.new 0 2 0, Vector4F.new 0 1 0, 0, 0, Color.black⟩ = ((0.25, 2, 0), (0.25, 0, 2)) := by
    rw [tri_uv, hn, hp]
    norm_num [tri_proj, Vector4F.new, abs_zero, h4abs, Prod.ext_iff]
  have htemp : tri_temp ⟨0.25, 0.25, 1, 1⟩ ⟨0, 0, -1, 0⟩
      ⟨Vector4F.new 0 0 0, Vector4F.new 0 0 1, 0, 0, Color.black⟩
      ⟨Vector4F.new 2 0 0, Vector4F.new 1 0 0, 0, 0, Color.black⟩
      ⟨Vector4F.new 0 2 0, Vector4F.new 0 1 0, 0, 0, Color.black⟩ = 4 := by
    rw [tri_temp, huv]
    norm_num
  have halpha : tri_alpha ⟨0.25, 0.25, 1, 1⟩ ⟨0, 0, -1, 0⟩
      ⟨Vector4F.new 0 0 0, Vector4F.new 0 0 1, 0, 0, Color.black⟩
      ⟨Vector4F.new 2 0 0, Vector4F.new 1 0 0, 0, 0, Color.black⟩
      ⟨Vector4F.new 0 2 0, Vector4F.new 0 1 0, 0, 0, Color.black⟩ = 0.125 := by
    rw [tri_alpha, huv, htemp]
    norm_num
  have hbeta : tri_beta ⟨0.25, 0.25, 1, 1⟩ ⟨0, 0, -1, 0⟩
      ⟨Vector4F.new 0 0 0, Vector4F.new 0 0 1, 0, 0, Color.black⟩
      ⟨Vector4F.new 2 0 0, Vector4F.new 1 0 0, 0, 0, Color.black⟩
      ⟨Vector4F.new 0 2 0, Vector4F.new 0 1 0, 0, 0, Color.black⟩ = 0.125 := by
    rw [tri_beta, huv, htemp]
    norm_num
  have hgamma : tri_gamma ⟨0.25, 0.25, 1, 1⟩ ⟨0, 0, -1, 0⟩
      ⟨Vector4F.new 0 0 0, Vector4F.new 0 0 1, 0, 0, Color.black⟩
      ⟨Vector4F.new 2 0 0, Vector4F.new 1 0 0, 0, 0, Color.black⟩
      ⟨Vector4F.new 0 2 0, Vector4F.new 0 1 0, 0, 0, Color.black⟩ = 0.75 := by
    rw [tri_gamma, halpha, hbeta]
    norm_num
  refine ⟨?_, ?_, ?_⟩
  · simp only [intersect_ray_triangle, hdot, htn, htemp, halpha, hbeta,
      hgamma, htq, hp]
    norm_num [Vector4F.new, Vector4F.normalize, Vector4F.len,
      Vector4F.sqr_len, Real.sqrt_one, Vector4F.mk.injEq]
  · simp only [intersect_ray_triangle, hdot, htn, htemp, halpha, hbeta,
      hgamma, htq, hp]
    norm_num [Vector4F.new, Vector4F.normalize, Vector4F.len,
      Vector4F.sqr_len, Real.sqrt_one, Vector4F.mk.injEq]
  · have hpos : (0 : ℝ) < Real.sqrt 0.59375 := Real.sqrt_pos.mpr (by norm_num)
    have hcomb : interpolated_normal
        ⟨Vector4F.new 0 0 0, Vector4F.new 0 0 1, 0, 0, Color.black⟩
        ⟨Vector4F.new 2 0 0, Vector4F.new 1 0 0, 0, 0, Color.black⟩
        ⟨Vector4F.new 0 2 0, Vector4F.new 0 1 0, 0, 0, Color.black⟩
        0.125 0.125 0.75 =
        Vector4F.normalize ⟨0.125, 0.75, 0.125, 1⟩ := by
      norm_num [interpolated_normal, Vector4F.new]
    have hlen : Vector4F.len ⟨0.125, 0.75, 0.125, 1⟩ = Real.sqrt 0.59375 := by
      rw [Vector4F.len]
      norm_num [Vector4F.sqr_len]
    have hnrm : Vector4F.normalize ⟨0.125, 0.75, 0.125, 1⟩ =
        ⟨0.125 / Real.sqrt 0.59375, 0.75 / Real.sqrt 0.59375,
         0.125 / Real.sqrt 0.59375, 1⟩ := by
      rw [Vector4F.normalize, hlen, if_neg hpos.ne']
    intro h
    rw [hcomb, hnrm] at h
    have hx : (0.125 : ℝ) / Real.sqrt 0.59375 = 0 := congrArg Vector4F.x h
    rcases div_eq_zero_iff.mp hx with h0 | h0
    · norm_num at h0
    · exact hpos.ne' h0

/-- C9: when depth exceeds scene.max_depth, trace returns black immediately,
leaving the random state untouched and intersecting no geometry; every
recursive call of trace passes depth + 1, so this guard makes trace a total
function (it is defined by well-founded recursion on
scene.max_depth + 1 - depth). -/
theorem c9_depth_cutoff (occ : OccTests) (ray_org ray_dir : Vector4F)
    (scene : Scene) (rng : ThreadRng) (depth : ℕ)
    (h : depth > scene.max_depth) :
    trace occ ray_org ray_dir scene rng depth = (Color.black, rng) := by
  rw [trace, dif_pos h]

/-- Witness for C9: a concrete empty scene with max_depth 0 at depth 1. -/
theorem c9_depth_cutoff_witness :
    1 > (Scene.mk [] [] [] [] Color.black 0 0).max_depth ∧
    trace ⟨fun _ _ _ _ => false, fun _ _ _ _ _ => false⟩ Vector4F.null
      Vector4F.null (Scene.mk [] [] [] [] Color.black 0 0)
      ⟨fun _ => 0, 0⟩ 1 = (Color.black, ⟨fun _ => 0, 0⟩) :=
  ⟨by decide,
   c9_depth_cutoff ⟨fun _ _ _ _ => false, fun _ _ _ _ _ => false⟩
     Vector4F.null Vector4F.null (Scene.mk [] [] [] [] Color.black 0 0)
     ⟨fun _ => 0, 0⟩ 1 (by decide)⟩

/-- C5: failing-input evaluation.  indirect_accum (main.rs lines 394-396)
adds path_color.r * shading to all three channels: with recursively traced
radiance (0,1,0) and shading 1, the green accumulator receives 0 even though
the green channel of the radiance weighted by the shading is 1. -/
theorem c5_indirect_uses_red_channel :
    indirect_accum Color.black ⟨0, 1, 0⟩ 1 = ⟨0, 0, 0⟩ ∧
    Color.g ⟨0, 1, 0⟩ * 1 = 1 := by
  constructor
  · norm_num [indirect_accum, Color.black, Color.mk.injEq]
  · norm_num

/-- C6: failing-input evaluation.  One sample pass (samples = 1) accumulates
radiance 1.0; with the dither draw equal to 0.5 (zero noise) the code
divides by samples + 1 = 2 and emits byte 128, while dividing by the number
of accumulated passes itself, as the claim states, would emit 255. -/
theorem c6_divides_by_samples_plus_one :
    (final_channel_byte 1 1 ⟨fun _ => 1 / 2, 0⟩).1 = 128 ∧
    (final_channel_byte_spec 1 1 ⟨fun _ => 1 / 2, 0⟩).1 = 255 := by
  constructor
  · show rust_round _ = 128
    rw [rust_round, Int.floor_eq_iff]
    norm_num [random_f]
  · show rust_round _ = 255
    rw [rust_round, Int.floor_eq_iff]
    norm_num [random_f]

/-- C1: failing-input evaluation.  Random::random_f in src/random.rs draws
from rand::thread_rng (an ambient, OS-seeded generator; Random::new takes no
seed), so for the same scene, ray and configured seed two runs whose
ambient streams differ produce different draws and different output bytes:
convert maps the same channel value 0.5 to byte 127 under one ambient
stream and to byte 128 under another. -/
theorem c1_ambient_rng_breaks_determinism :
    (random_f ⟨fun _ => 0, 0⟩).1 ≠ (random_f ⟨fun _ => 1 / 2, 0⟩).1 ∧
    (convert (1 / 2) ⟨fun _ => 0, 0⟩).1 = 127 ∧
    (convert (1 / 2) ⟨fun _ => 1 / 2, 0⟩).1 = 128 := by
  refine ⟨by norm_num [random_f], ?_, ?_⟩
  · show rust_round _ = 127
    rw [rust_round, Int.floor_eq_iff]
    norm_num [random_f]
  · show rust_round _ = 128
    rw [rust_round, Int.floor_eq_iff]
    norm_num [random_f]

/-- Helper: the blocked test of the shadow loops, as a proposition.  A
sphere counts only if its index differs from closest_sp_index cast to
usize; every triangle of every mesh counts. -/
theorem shadow_ray_blocked_iff (spheres : List Sphere) (meshes : List Mesh)
    (csi : Int) (pos dir : Vector4F) (occ : OccTests) :
    shadow_ray_blocked spheres meshes csi pos dir occ = true ↔
      ((∃ l, l < spheres.length ∧ l ≠ i32_as_usize csi ∧
          occ.ray_intersects_sphere pos dir (spheres.getD l default).center
            (spheres.getD l default).radius = true) ∨
        (∃ m ∈ meshes, ∃ t ∈ m.triangles,
          occ.ray_intersects_triangle pos dir t.v1 t.v2 t.v3 = true)) := by
  have hif : ∀ (c : Prop) (inst : Decidable c) (b : Bool),
      ((if c then b else false) = true) ↔ (c ∧ b = true) := by
    intro c inst b
    split_ifs with h
    · simp [h]
    · simp [h]
  simp only [shadow_ray_blocked, Bool.or_eq_true, List.any_eq_true,
    List.mem_range, hif]

/-- C4 (amended): the visibility intensity computed by trace for a point
light is binary, and it is 1.0 exactly when no tested object occludes the
shadow ray, where the tested objects are every triangle of every mesh and
every sphere except the one whose index equals closest_sp_index cast to
usize (the hit sphere, when the hit object is a sphere, is skipped). -/
theorem c4_point_light_binary (spheres : List Sphere) (meshes : List Mesh)
    (csi : Int) (pos ldir : Vector4F) (occ : OccTests) :
    (point_light_intensity spheres meshes csi pos ldir occ = 0 ∨
      point_light_intensity spheres meshes csi pos ldir occ = 1) ∧
    (point_light_intensity spheres meshes csi pos ldir occ = 1 ↔
      ¬((∃ l, l < spheres.length ∧ l ≠ i32_as_usize csi ∧
          occ.ray_intersects_sphere pos ldir (spheres.getD l default).center
            (spheres.getD l default).radius = true) ∨
        (∃ m ∈ meshes, ∃ t ∈ m.triangles,
          occ.ray_intersects_triangle pos ldir t.v1 t.v2 t.v3 = true))) := by
  constructor
  · rw [point_light_intensity]
    split_ifs
    · exact Or.inl rfl
    · exact Or.inr rfl
  · rw [point_light_intensity]
    split_ifs with hb
    · refine iff_of_false (by norm_num) ?_
      rw [not_not]
      exact (shadow_ray_blocked_iff spheres meshes csi pos ldir occ).mp hb
    · refine iff_of_true rfl ?_
      intro hcon
      exact hb ((shadow_ray_blocked_iff spheres meshes csi pos ldir occ).mpr
        hcon)

/-- C4 counterexample to the claim as stated: a single sphere which is both
the hit object (closest_sp_index = 0) and an occluder according to the
shadow test; the claim as stated demands intensity 0.0, but the code skips
the hit sphere in the shadow loop and computes 1.0. -/
theorem c4_counterexample :
    point_light_intensity [⟨⟨0, 0, 0, 1⟩, 1, "m"⟩] [] 0 ⟨0, 0, 1, 1⟩
      ⟨0, 0, -1, 0⟩ ⟨fun _ _ _ _ => true, fun _ _ _ _ _ => false⟩ = 1 ∧
    OccTests.ray_intersects_sphere
      ⟨fun _ _ _ _ => true, fun _ _ _ _ _ => false⟩ ⟨0, 0, 1, 1⟩
      ⟨0, 0, -1, 0⟩ ⟨0, 0, 0, 1⟩ 1 = true := by
  constructor
  · rw [point_light_intensity]
    rw [if_neg]
    rw [Bool.not_eq_true]
    rw [shadow_ray_blocked]
    have h0 : i32_as_usize 0 = 0 := rfl
    simp [h0]
  · rfl

/-- Helper: aabb_aabb_overlap holds exactly when the boxes meet on every
axis. -/
theorem aabb_aabb_overlap_true_iff (m1 M1 m2 M2 : Vector4F) :
    aabb_aabb_overlap m1 M1 m2 M2 = true ↔
      (m1.x ≤ M2.x ∧ m2.x ≤ M1.x ∧ m1.y ≤ M2.y ∧ m2.y ≤ M1.y ∧
        m1.z ≤ M2.z ∧ m2.z ≤ M1.z) := by
  rw [aabb_aabb_overlap]
  split_ifs with h1 h2 h3 h4 h5 h6
  · exact iff_of_false (by simp) (fun hh => absurd hh.1 (not_le.mpr h1))
  · exact iff_of_false (by simp) (fun hh => absurd hh.2.1 (not_le.mpr h2))
  · exact iff_of_false (by simp) (fun hh => absurd hh.2.2.1 (not_le.mpr h3))
  · exact iff_of_false (by simp) (fun hh => absurd hh.2.2.2.1 (not_le.mpr h4))
  · exact iff_of_false (by simp) (fun hh => absurd hh.2.2.2.2.1 (not_le.mpr h5))
  · exact iff_of_false (by simp) (fun hh => absurd hh.2.2.2.2.2 (not_le.mpr h6))
  · exact iff_of_true rfl ⟨not_lt.mp h1, not_lt.mp h2, not_lt.mp h3,
      not_lt.mp h4, not_lt.mp h5, not_lt.mp h6⟩

/-- Helper: two boxes sharing a point overlap. -/
theorem overlap_of_shared_point (p m1 M1 m2 M2 : Vector4F)
    (h1 : in_box p m1 M1) (h2 : in_box p m2 M2) :
    aabb_aabb_overlap m1 M1 m2 M2 = true := by
  rw [aabb_aabb_overlap_true_iff]
  obtain ⟨a1, a2, a3, a4, a5, a6⟩ := h1
  obtain ⟨b1, b2, b3, b4, b5, b6⟩ := h2
  exact ⟨le_trans a1 b2, le_trans b1 a2, le_trans a3 b4, le_trans b3 a4,
    le_trans a5 b6, le_trans b5 a6⟩

/-- Helper: overlap with a sub-box implies overlap with the enclosing box. -/
theorem overlap_mono (m1 M1 mn1 mx1 mn mx : Vector4F)
    (h : aabb_aabb_overlap m1 M1 mn1 mx1 = true)
    (hs : box_subset mn1 mx1 mn mx) :
    aabb_aabb_overlap m1 M1 mn mx = true := by
  rw [aabb_aabb_overlap_true_iff] at h ⊢
  obtain ⟨a1, a2, a3, a4, a5, a6⟩ := h
  obtain ⟨s1, s2, s3, s4, s5, s6⟩ := hs
  exact ⟨le_trans a1 s2, le_trans s1 a2, le_trans a3 s4, le_trans s3 a4,
    le_trans a5 s6, le_trans s5 a6⟩

/-- Helper: a parameter value inside one axis slab bounds the sorted slab
interval of that axis. -/
theorem slab_axis_bounds (a b o dr t : ℝ) (hdr : dr ≠ 0)
    (h1 : a ≤ o + dr * t) (h2 : o + dr * t ≤ b) :
    min ((a - o) / dr) ((b - o) / dr) ≤ t ∧
      t ≤ max ((a - o) / dr) ((b - o) / dr) := by
  rcases hdr.lt_or_lt with hneg | hpos
  · have hx : (b - o) / dr ≤ t := by
      rw [div_le_iff_of_neg hneg]
      nlinarith
    have hy : t ≤ (a - o) / dr := by
      rw [le_div_iff_of_neg hneg]
      nlinarith
    exact ⟨le_trans (min_le_right _ _) hx, le_trans hy (le_max_left _ _)⟩
  · have hx : (a - o) / dr ≤ t := by
      rw [div_le_iff₀ hpos]
      nlinarith
    have hy : t ≤ (b - o) / dr := by
      rw [le_div_iff₀ hpos]
      nlinarith
    exact ⟨le_trans (min_le_left _ _) hx, le_trans hy (le_max_right _ _)⟩

/-- Helper: if some point of the ray lies in the box and no direction
component is zero, ray_intersects_aabb reports a hit. -/
theorem ray_hits_box_of_point (rorg rdir mn mx : Vector4F)
    (hdx : rdir.x ≠ 0) (hdy : rdir.y ≠ 0) (hdz : rdir.z ≠ 0) (t : ℝ)
    (h : in_box ⟨rorg.x + rdir.x * t, rorg.y + rdir.y * t,
      rorg.z + rdir.z * t, 1⟩ mn mx) :
    ray_intersects_aabb rorg rdir mn mx = true := by
  rw [raib_iff_slab, slab_lo, slab_hi]
  obtain ⟨a1, a2, a3, a4, a5, a6⟩ := h
  have hx := slab_axis_bounds mn.x mx.x rorg.x rdir.x t hdx a1 a2
  have hy := slab_axis_bounds mn.y mx.y rorg.y rdir.y t hdy a3 a4
  have hz := slab_axis_bounds mn.z mx.z rorg.z rdir.z t hdz a5 a6
  exact le_trans (max_le hx.1 (max_le hy.1 hz.1))
    (le_min hx.2 (le_min hy.2 hz.2))

/-- Helper: dot distributes over sub on the three spatial components. -/
theorem dot_sub (n a b : Vector4F) :
    Vector4F.dot n (Vector4F.sub a b) =
      Vector4F.dot n a - Vector4F.dot n b := by
  simp only [Vector4F.dot, Vector4F.sub]
  ring

/-- Helper: the cross product is orthogonal to its first factor. -/
theorem dot_cross_e1 (a b : Vector4F) :
    Vector4F.dot (Vector4F.cross a b) a = 0 := by
  simp only [Vector4F.dot, Vector4F.cross]
  ring

/-- Helper: the cross product is orthogonal to its second factor. -/
theorem dot_cross_e2 (a b : Vector4F) :
    Vector4F.dot (Vector4F.cross a b) b = 0 := by
  simp only [Vector4F.dot, Vector4F.cross]
  ring

/-- Helper: the 2x2 system solved by intersect_ray_triangle reconstructs
both projected coordinates. -/
theorem solve2 (u0 u1 u2 w0 w1 w2 : ℝ) (h : u1 * w2 - w1 * u2 ≠ 0) :
    u0 = (u0 * w2 - w0 * u2) * (1 / (u1 * w2 - w1 * u2)) * u1 +
         (u1 * w0 - w1 * u0) * (1 / (u1 * w2 - w1 * u2)) * u2 ∧
    w0 = (u0 * w2 - w0 * u2) * (1 / (u1 * w2 - w1 * u2)) * w1 +
         (u1 * w0 - w1 * u0) * (1 / (u1 * w2 - w1 * u2)) * w2 := by
  constructor <;> (field_simp; ring)

/-- Helper: a convex combination with weights (1-a-b, a, b) stays between
the min and the max of the three combined values. -/
theorem combo_bounds (a b c al be : ℝ) (ha : 0 ≤ al) (hb : 0 ≤ be)
    (hg : 0 ≤ 1 - al - be) :
    min (min a b) c ≤ (1 - al - be) * a + al * b + be * c ∧
      (1 - al - be) * a + al * b + be * c ≤ max (max a b) c := by
  have h1 : min (min a b) c ≤ a := le_trans (min_le_left _ _) (min_le_left _ _)
  have h2 : min (min a b) c ≤ b := le_trans (min_le_left _ _) (min_le_right _ _)
  have h3 : min (min a b) c ≤ c := min_le_right _ _
  have h4 : a ≤ max (max a b) c := le_trans (le_max_left _ _) (le_max_left _ _)
  have h5 : b ≤ max (max a b) c := le_trans (le_max_right _ _) (le_max_left _ _)
  have h6 : c ≤ max (max a b) c := le_max_right _ _
  constructor
  · nlinarith [mul_nonneg hg (sub_nonneg.mpr h1), mul_nonneg ha
      (sub_nonneg.mpr h2), mul_nonneg hb (sub_nonneg.mpr h3)]
  · nlinarith [mul_nonneg hg (sub_nonneg.mpr h4), mul_nonneg ha
      (sub_nonneg.mpr h5), mul_nonneg hb (sub_nonneg.mpr h6)]

/-- Helper: when intersect_ray_triangle reports a hit, all of its guards
passed: back-face test, plane-side tests, nonzero determinant, and the three
barycentric sign tests. -/
theorem irt_isSome_guards (rorg rdir : Vector4F) (v0 v1 v2 : Vertex4F)
    (min_t : ℝ)
    (h : (intersect_ray_triangle rorg rdir v0 v1 v2 min_t).isSome = true) :
    tri_dot rdir v0 v1 v2 < 0 ∧ tri_t_num rorg v0 v1 v2 ≤ 0 ∧
      tri_temp rorg rdir v0 v1 v2 ≠ 0 ∧ tri_alpha rorg rdir v0 v1 v2 ≥ 0 ∧
      tri_beta rorg rdir v0 v1 v2 ≥ 0 ∧ tri_gamma rorg rdir v0 v1 v2 ≥ 0 := by
  rw [intersect_ray_triangle] at h
  split_ifs at h with h1 h2 h3 h4 h5 h6 h7
  all_goals try simp at h
  exact ⟨h1, h2, h4, h5, h6, h7⟩

/-- Helper: the 2x2 solve of intersect_ray_triangle reconstructs the point
on the two projected axes as a barycentric combination of the vertices. -/
theorem bary_axes (al be Pa p0a p1a p2a Pb p0b p1b p2b : ℝ)
    (htemp : (p1a - p0a) * (p2b - p0b) - (p1b - p0b) * (p2a - p0a) ≠ 0)
    (hA : al = ((Pa - p0a) * (p2b - p0b) - (Pb - p0b) * (p2a - p0a)) *
      (1 / ((p1a - p0a) * (p2b - p0b) - (p1b - p0b) * (p2a - p0a))))
    (hB : be = ((p1a - p0a) * (Pb - p0b) - (p1b - p0b) * (Pa - p0a)) *
      (1 / ((p1a - p0a) * (p2b - p0b) - (p1b - p0b) * (p2a - p0a)))) :
    Pa = (1 - al - be) * p0a + al * p1a + be * p2a ∧
      Pb = (1 - al - be) * p0b + al * p1b + be * p2b := by
  subst hA
  subst hB
  constructor <;> (field_simp; ring)

/-- Helper: a point on the triangle's plane whose two projected coordinates
are a barycentric combination also has the third coordinate equal to that
combination, provided the dominant normal component is nonzero. -/
theorem plane_third_axis (al be nc na nb Pc Pa Pb p0c p0a p0b p1c p1a p1b
    p2c p2a p2b : ℝ) (hnc : nc ≠ 0)
    (hplane : nc * Pc + na * Pa + nb * Pb = nc * p0c + na * p0a + nb * p0b)
    (hp1 : nc * p1c + na * p1a + nb * p1b = nc * p0c + na * p0a + nb * p0b)
    (hp2 : nc * p2c + na * p2a + nb * p2b = nc * p0c + na * p0a + nb * p0b)
    (hA : Pa = (1 - al - be) * p0a + al * p1a + be * p2a)
    (hB : Pb = (1 - al - be) * p0b + al * p1b + be * p2b) :
    Pc = (1 - al - be) * p0c + al * p1c + be * p2c := by
  have key : nc * Pc = nc * ((1 - al - be) * p0c + al * p1c + be * p2c) := by
    linear_combination hplane - al * hp1 - be * hp2 - na * hA - nb * hB
  exact mul_left_cancel₀ hnc key

/-- Helper: under the guards of intersect_ray_triangle, the computed hit
point lies inside the triangle's bounding box (it is the barycentric
combination of the vertices with non-negative weights summing to 1). -/
theorem tri_p_in_tri_box (rorg rdir : Vector4F) (v0 v1 v2 : Vertex4F)
    (hdot : tri_dot rdir v0 v1 v2 < 0)
    (htemp : tri_temp rorg rdir v0 v1 v2 ≠ 0)
    (ha : tri_alpha rorg rdir v0 v1 v2 ≥ 0)
    (hb : tri_beta rorg rdir v0 v1 v2 ≥ 0)
    (hg : tri_gamma rorg rdir v0 v1 v2 ≥ 0) :
    in_box (tri_p rorg rdir v0 v1 v2)
      (triangle_to_aabb v0.pos v1.pos v2.pos).1
      (triangle_to_aabb v0.pos v1.pos v2.pos).2 := by
  rw [tri_gamma] at hg
  set P := tri_p rorg rdir v0 v1 v2 with hPdef
  set al := tri_alpha rorg rdir v0 v1 v2 with hal
  set be := tri_beta rorg rdir v0 v1 v2 with hbe
  set n := tri_n v0 v1 v2 with hndef
  have ha0 : 0 ≤ al := ha
  have hb0 : 0 ≤ be := hb
  have hg0 : 0 ≤ 1 - al - be := hg
  have hdd : Vector4F.dot n rdir ≠ 0 := by
    rw [hndef]
    rw [tri_dot] at hdot
    exact ne_of_lt hdot
  have hB1 : Vector4F.dot n v1.pos = Vector4F.dot n v0.pos := by
    have h0 : Vector4F.dot n (Vector4F.sub v1.pos v0.pos) = 0 := by
      rw [hndef, tri_n]
      exact dot_cross_e1 _ _
    rw [dot_sub] at h0
    linarith
  have hB2 : Vector4F.dot n v2.pos = Vector4F.dot n v1.pos := by
    have h0 : Vector4F.dot n (Vector4F.sub v2.pos v1.pos) = 0 := by
      rw [hndef, tri_n]
      exact dot_cross_e2 _ _
    rw [dot_sub] at h0
    linarith
  have hq : tri_dot rdir v0 v1 v2 * tri_tq rorg rdir v0 v1 v2 =
      tri_t_num rorg v0 v1 v2 := by
    rw [tri_tq, mul_comm]
    exact div_mul_cancel₀ _ (ne_of_lt hdot)
  have hexp : Vector4F.dot n P = Vector4F.dot n rorg +
      tri_dot rdir v0 v1 v2 * tri_tq rorg rdir v0 v1 v2 := by
    rw [hPdef, tri_p, tri_dot, ← hndef]
    simp only [Vector4F.dot]
    ring
  have hplane : Vector4F.dot n P = Vector4F.dot n v0.pos := by
    rw [hexp, hq, tri_t_num, ← hndef]
    ring
  have hplaneC : n.x * P.x + n.y * P.y + n.z * P.z =
      n.x * v0.pos.x + n.y * v0.pos.y + n.z * v0.pos.z := by
    simpa [Vector4F.dot] using hplane
  have hB1C : n.x * v1.pos.x + n.y * v1.pos.y + n.z * v1.pos.z =
      n.x * v0.pos.x + n.y * v0.pos.y + n.z * v0.pos.z := by
    simpa [Vector4F.dot] using hB1
  have hB2C : n.x * v2.pos.x + n.y * v2.pos.y + n.z * v2.pos.z =
      n.x * v1.pos.x + n.y * v1.pos.y + n.z * v1.pos.z := by
    simpa [Vector4F.dot] using hB2
  have hB2C0 : n.x * v2.pos.x + n.y * v2.pos.y + n.z * v2.pos.z =
      n.x * v0.pos.x + n.y * v0.pos.y + n.z * v0.pos.z := by
    rw [hB2C, hB1C]
  have huvP : tri_uv rorg rdir v0 v1 v2 = tri_proj n P v0.pos v1.pos v2.pos := by
    rw [tri_uv, ← hndef, ← hPdef]
  have main : P.x = (1 - al - be) * v0.pos.x + al * v1.pos.x + be * v2.pos.x ∧
      P.y = (1 - al - be) * v0.pos.y + al * v1.pos.y + be * v2.pos.y ∧
      P.z = (1 - al - be) * v0.pos.z + al * v1.pos.z + be * v2.pos.z := by
    rcases le_or_lt |n.x| |n.y| with hxy | hxy
    · rcases le_or_lt |n.y| |n.z| with hyz | hyz
      · -- dominant z, projected axes x and y
        have hproj : tri_proj n P v0.pos v1.pos v2.pos =
            ((P.x - v0.pos.x, v1.pos.x - v0.pos.x, v2.pos.x - v0.pos.x),
             (P.y - v0.pos.y, v1.pos.y - v0.pos.y, v2.pos.y - v0.pos.y)) := by
          rw [tri_proj]
          simp only [if_neg (not_lt.mpr hxy), if_neg (not_lt.mpr hyz)]
        have htempEq : tri_temp rorg rdir v0 v1 v2 =
            (v1.pos.x - v0.pos.x) * (v2.pos.y - v0.pos.y) -
              (v1.pos.y - v0.pos.y) * (v2.pos.x - v0.pos.x) := by
          rw [tri_temp, huvP, hproj]
        have htempE := htemp
        rw [htempEq] at htempE
        have halE := hal
        rw [tri_alpha, huvP, hproj, htempEq] at halE
        simp only at halE
        have hbeE := hbe
        rw [tri_beta, huvP, hproj, htempEq] at hbeE
        simp only at hbeE
        have hsol := bary_axes al be P.x v0.pos.x v1.pos.x v2.pos.x
          P.y v0.pos.y v1.pos.y v2.pos.y htempE halE hbeE
        have hnz : n.z ≠ 0 := by
          intro h0
          have hy0 : n.y = 0 := by
            have : |n.y| ≤ 0 := by rw [← abs_zero (α := ℝ), ← h0]; exact hyz
            exact abs_eq_zero.mp (le_antisymm this (abs_nonneg _))
          have hx0 : n.x = 0 := by
            have : |n.x| ≤ 0 := by
              rw [← abs_zero (α := ℝ), ← hy0]
              exact hxy
            exact abs_eq_zero.mp (le_antisymm this (abs_nonneg _))
          apply hdd
          simp [Vector4F.dot, hx0, hy0, h0]
        have hz := plane_third_axis al be n.z n.x n.y P.z P.x P.y
          v0.pos.z v0.pos.x v0.pos.y v1.pos.z v1.pos.x v1.pos.y
          v2.pos.z v2.pos.x v2.pos.y hnz
          (by linear_combination hplaneC) (by linear_combination hB1C)
          (by linear_combination hB2C0) hsol.1 hsol.2
        exact ⟨hsol.1, hsol.2, hz⟩
      · -- dominant y, projected axes x and z
        have hproj : tri_proj n P v0.pos v1.pos v2.pos =
            ((P.x - v0.pos.x, v1.pos.x - v0.pos.x, v2.pos.x - v0.pos.x),
             (P.z - v0.pos.z, v1.pos.z - v0.pos.z, v2.pos.z - v0.pos.z)) := by
          rw [tri_proj]
          simp only [if_neg (not_lt.mpr hxy), if_pos hyz]
        have htempEq : tri_temp rorg rdir v0 v1 v2 =
            (v1.pos.x - v0.pos.x) * (v2.pos.z - v0.pos.z) -
              (v1.pos.z - v0.pos.z) * (v2.pos.x - v0.pos.x) := by
          rw [tri_temp, huvP, hproj]
        have htempE := htemp
        rw [htempEq] at htempE
        have halE := hal
        rw [tri_alpha, huvP, hproj, htempEq] at halE
        simp only at halE
        have hbeE := hbe
        rw [tri_beta, huvP, hproj, htempEq] at hbeE
        simp only at hbeE
        have hsol := bary_axes al be P.x v0.pos.x v1.pos.x v2.pos.x
          P.z v0.pos.z v1.pos.z v2.pos.z htempE halE hbeE
        have hny : n.y ≠ 0 := by
          intro h0
          rw [h0, abs_zero] at hyz
          exact absurd hyz (not_lt.mpr (abs_nonneg _))
        have hy := plane_third_axis al be n.y n.x n.z P.y P.x P.z
          v0.pos.y v0.pos.x v0.pos.z v1.pos.y v1.pos.x v1.pos.z
          v2.pos.y v2.pos.x v2.pos.z hny
          (by linear_combination hplaneC) (by linear_combination hB1C)
          (by linear_combination hB2C0) hsol.1 hsol.2
        exact ⟨hsol.1, hy, hsol.2⟩
    · rcases le_or_lt |n.x| |n.z| with hxz | hxz
      · -- dominant z, projected axes x and y
        have hproj : tri_proj n P v0.pos v1.pos v2.pos =
            ((P.x - v0.pos.x, v1.pos.x - v0.pos.x, v2.pos.x - v0.pos.x),
             (P.y - v0.pos.y, v1.pos.y - v0.pos.y, v2.pos.y - v0.pos.y)) := by
          rw [tri_proj]
          simp only [if_pos hxy, if_neg (not_lt.mpr hxz)]
        have htempEq : tri_temp rorg rdir v0 v1 v2 =
            (v1.pos.x - v0.pos.x) * (v2.pos.y - v0.pos.y) -
              (v1.pos.y - v0.pos.y) * (v2.pos.x - v0.pos.x) := by
          rw [tri_temp, huvP, hproj]
        have htempE := htemp
        rw [htempEq] at htempE
        have halE := hal
        rw [tri_alpha, huvP, hproj, htempEq] at halE
        simp only at halE
        have hbeE := hbe
        rw [tri_beta, huvP, hproj, htempEq] at hbeE
        simp only at hbeE
        have hsol := bary_axes al be P.x v0.pos.x v1.pos.x v2.pos.x
          P.y v0.pos.y v1.pos.y v2.pos.y htempE halE hbeE
        have hnz : n.z ≠ 0 := by
          intro h0
          have : |n.x| ≤ 0 := by
            rw [← abs_zero (α := ℝ), ← h0]
            exact hxz
          have hx0 : n.x = 0 := abs_eq_zero.mp (le_antisymm this (abs_nonneg _))
          rw [hx0, abs_zero] at hxy
          exact absurd hxy (not_lt.mpr (abs_nonneg _))
        have hz := plane_third_axis al be n.z n.x n.y P.z P.x P.y
          v0.pos.z v0.pos.x v0.pos.y v1.pos.z v1.pos.x v1.pos.y
          v2.pos.z v2.pos.x v2.pos.y hnz
          (by linear_combination hplaneC) (by linear_combination hB1C)
          (by linear_combination hB2C0) hsol.1 hsol.2
        exact ⟨hsol.1, hsol.2, hz⟩
      · -- dominant x, projected axes y and z
        have hproj : tri_proj n P v0.pos v1.pos v2.pos =
            ((P.y - v0.pos.y, v1.pos.y - v0.pos.y, v2.pos.y - v0.pos.y),
             (P.z - v0.pos.z, v1.pos.z - v0.pos.z, v2.pos.z - v0.pos.z)) := by
          rw [tri_proj]
          simp only [if_pos hxy, if_pos hxz]
        have htempEq : tri_temp rorg rdir v0 v1 v2 =
            (v1.pos.y - v0.pos.y) * (v2.pos.z - v0.pos.z) -
              (v1.pos.z - v0.pos.z) * (v2.pos.y - v0.pos.y) := by
          rw [tri_temp, huvP, hproj]
        have htempE := htemp
        rw [htempEq] at htempE
        have halE := hal
        rw [tri_alpha, huvP, hproj, htempEq] at halE
        simp only at halE
        have hbeE := hbe
        rw [tri_beta, huvP, hproj, htempEq] at hbeE
        simp only at hbeE
        have hsol := bary_axes al be P.y v0.pos.y v1.pos.y v2.pos.y
          P.z v0.pos.z v1.pos.z v2.pos.z htempE halE hbeE
        have hnx : n.x ≠ 0 := by
          intro h0
          rw [h0, abs_zero] at hxy
          exact absurd hxy (not_lt.mpr (abs_nonneg _))
        have hx := plane_third_axis al be n.x n.y n.z P.x P.y P.z
          v0.pos.x v0.pos.y v0.pos.z v1.pos.x v1.pos.y v1.pos.z
          v2.pos.x v2.pos.y v2.pos.z hnx
          (by linear_combination hplaneC) (by linear_combination hB1C)
          (by linear_combination hB2C0) hsol.1 hsol.2
        exact ⟨hx, hsol.1, hsol.2⟩
  obtain ⟨hx, hy, hz⟩ := main
  have cbx := combo_bounds v0.pos.x v1.pos.x v2.pos.x al be ha0 hb0 hg0
  have cby := combo_bounds v0.pos.y v1.pos.y v2.pos.y al be ha0 hb0 hg0
  have cbz := combo_bounds v0.pos.z v1.pos.z v2.pos.z al be ha0 hb0 hg0
  rw [in_box]
  simp only [triangle_to_aabb]
  rw [hx, hy, hz]
  exact ⟨cbx.1, cbx.2, cby.1, cby.2, cbz.1, cbz.2⟩

/-- Helper: unfolding intersection_candidates on a constructed node. -/
theorem intersection_candidates_mk (children : List OctreeNode)
    (tris : List ℕ) (mn mx rorg rdir : Vector4F) :
    intersection_candidates (OctreeNode.mk children tris mn mx) rorg rdir =
      if ray_intersects_aabb rorg rdir mn mx then
        (if children.length > 0 then
          (children.attach.map
            (fun c => intersection_candidates c.1 rorg rdir)).flatten
        else tris)
      else [] := by
  rw [intersection_candidates]

/-- Helper: unfolding leaves on a constructed node. -/
theorem leaves_mk (children : List OctreeNode) (tris : List ℕ)
    (mn mx : Vector4F) :
    OctreeNode.leaves (OctreeNode.mk children tris mn mx) =
      if children.length > 0 then
        (children.attach.map (fun c => c.1.leaves)).flatten
      else [OctreeNode.mk children tris mn mx] := by
  rw [OctreeNode.leaves]

/-- Helper: a candidate of a child node is a candidate of the parent when
the ray hits the parent box. -/
theorem mem_candidates_of_child (children : List OctreeNode) (tris : List ℕ)
    (mn mx rorg rdir : Vector4F) (c : OctreeNode) (i : ℕ)
    (hc : c ∈ children) (hray : ray_intersects_aabb rorg rdir mn mx = true)
    (hi : i ∈ intersection_candidates c rorg rdir) :
    i ∈ intersection_candidates (OctreeNode.mk children tris mn mx)
      rorg rdir := by
  rw [intersection_candidates_mk, if_pos hray, if_pos
    (List.length_pos.mpr (List.ne_nil_of_mem hc))]
  exact List.mem_flatten.mpr ⟨intersection_candidates c rorg rdir,
    List.mem_map.mpr ⟨⟨c, hc⟩, List.mem_attach _ _, rfl⟩, hi⟩

/-- Helper: every leaf of the parent with children comes from some child. -/
theorem leaves_elim (children : List OctreeNode) (tris : List ℕ)
    (mn mx : Vector4F) (L : OctreeNode) (hpos : children.length > 0)
    (h : L ∈ OctreeNode.leaves (OctreeNode.mk children tris mn mx)) :
    ∃ c ∈ children, L ∈ OctreeNode.leaves c := by
  rw [leaves_mk, if_pos hpos] at h
  obtain ⟨l, hl, hL⟩ := List.mem_flatten.mp h
  obtain ⟨⟨c, hc⟩, _, rfl⟩ := List.mem_map.mp hl
  exact ⟨c, hc, hL⟩

/-- Helper: a childless node is its own single leaf. -/
theorem leaves_leaf (tris : List ℕ) (mn mx : Vector4F) :
    OctreeNode.leaves (OctreeNode.mk [] tris mn mx) =
      [OctreeNode.mk [] tris mn mx] := by
  rw [leaves_mk]
  simp

/-- Helper: membership in the filtered triangle list of a node. -/
theorem mem_node_tris (mesh : OctMesh) (mn mx : Vector4F) (indexes : List ℕ)
    (depth : ℕ) (i : ℕ) (hi : i ∈ indexes)
    (hov : triangle_aabb_overlap (mesh.vert1 i).pos (mesh.vert2 i).pos
      (mesh.vert3 i).pos mn mx = true) :
    i ∈ (if depth > 1 then
      indexes.filter (fun t => triangle_aabb_overlap (mesh.vert1 t).pos
        (mesh.vert2 t).pos (mesh.vert3 t).pos mn mx)
    else indexes) := by
  split_ifs
  · exact List.mem_filter.mpr ⟨hi, hov⟩
  · exact hi

/-- Helper: unfolding build_octree_rec at a leaf. -/
theorem build_octree_rec_leaf (mesh : OctMesh) (mn mx : Vector4F)
    (indexes : List ℕ) (depth max_depth : ℕ) (h : depth ≥ max_depth) :
    build_octree_rec mesh mn mx indexes depth max_depth =
      OctreeNode.mk []
        (if depth > 1 then
          indexes.filter (fun t => triangle_aabb_overlap (mesh.vert1 t).pos
            (mesh.vert2 t).pos (mesh.vert3 t).pos mn mx)
        else indexes) mn mx := by
  rw [build_octree_rec, dif_pos h]

/-- Helper: unfolding build_octree_rec at an internal node. -/
theorem build_octree_rec_node (mesh : OctMesh) (mn mx : Vector4F)
    (indexes : List ℕ) (depth max_depth : ℕ) (h : ¬(depth ≥ max_depth)) :
    build_octree_rec mesh mn mx indexes depth max_depth =
      OctreeNode.mk
        ((child_boxes mn mx).map (fun cb =>
          build_octree_rec mesh cb.1 cb.2
            (if depth > 1 then
              indexes.filter (fun t =>
                triangle_aabb_overlap (mesh.vert1 t).pos (mesh.vert2 t).pos
                  (mesh.vert3 t).pos mn mx)
            else indexes) (depth + 1) max_depth))
        [] mn mx := by
  rw [build_octree_rec, dif_neg h]

/-- Helper: a point of both the triangle box and the node box certifies the
conservative triangle/box overlap test. -/
theorem tri_overlap_of_point (p t1 t2 t3 mn mx : Vector4F)
    (hp1 : in_box p (triangle_to_aabb t1 t2 t3).1 (triangle_to_aabb t1 t2 t3).2)
    (hp2 : in_box p mn mx) :
    triangle_aabb_overlap t1 t2 t3 mn mx = true := by
  rw [triangle_aabb_overlap]
  exact overlap_of_shared_point p _ _ _ _ hp1 hp2

/-- Helper: the triangle/box overlap test is monotone in the box. -/
theorem tri_overlap_mono (t1 t2 t3 mn1 mx1 mn mx : Vector4F)
    (h : triangle_aabb_overlap t1 t2 t3 mn1 mx1 = true)
    (hs : box_subset mn1 mx1 mn mx) :
    triangle_aabb_overlap t1 t2 t3 mn mx = true := by
  rw [triangle_aabb_overlap] at h ⊢
  exact overlap_mono _ _ _ _ _ _ h hs

/-- Helper: split of an axis interval into its two halves. -/
theorem axis_split (a b x : ℝ) (h1 : a ≤ x) (h2 : x ≤ b) :
    (a ≤ x ∧ x ≤ a + (b - a) / 2) ∨
      (a + (b - a) / 2 ≤ x ∧ x ≤ a + (b - a) / 2 + (b - a) / 2) := by
  rcases le_or_lt x (a + (b - a) / 2) with h | h
  · exact Or.inl ⟨h1, h⟩
  · exact Or.inr ⟨h.le, by linarith⟩

/-- Helper: every point of an ordered box lies in one of its eight child
octants. -/
theorem child_cover (mn mx p : Vector4F) (hble : box_le mn mx)
    (hpin : in_box p mn mx) :
    ∃ cb ∈ child_boxes mn mx, in_box p cb.1 cb.2 := by
  obtain ⟨h1, h2, h3, h4, h5, h6⟩ := hpin
  have hx := axis_split mn.x mx.x p.x h1 h2
  have hy := axis_split mn.y mx.y p.y h3 h4
  have hz := axis_split mn.z mx.z p.z h5 h6
  rcases hx with hx | hx <;> rcases hy with hy | hy <;> rcases hz with hz | hz
  · exact ⟨(Vector4F.new mn.x mn.y mn.z,
      Vector4F.new (mn.x + (mx.x - mn.x) / 2) (mn.y + (mx.y - mn.y) / 2)
        (mn.z + (mx.z - mn.z) / 2)), by simp [child_boxes],
      by simp only [in_box, Vector4F.new];
         exact ⟨hx.1, hx.2, hy.1, hy.2, hz.1, hz.2⟩⟩
  · exact ⟨(Vector4F.new mn.x mn.y (mn.z + (mx.z - mn.z) / 2),
      Vector4F.new (mn.x + (mx.x - mn.x) / 2) (mn.y + (mx.y - mn.y) / 2)
        (mn.z + (mx.z - mn.z) / 2 + (mx.z - mn.z) / 2)), by simp [child_boxes],
      by simp only [in_box, Vector4F.new];
         exact ⟨hx.1, hx.2, hy.1, hy.2, hz.1, hz.2⟩⟩
  · exact ⟨(Vector4F.new mn.x (mn.y + (mx.y - mn.y) / 2) mn.z,
      Vector4F.new (mn.x + (mx.x - mn.x) / 2)
        (mn.y + (mx.y - mn.y) / 2 + (mx.y - mn.y) / 2)
        (mn.z + (mx.z - mn.z) / 2)), by simp [child_boxes],
      by simp only [in_box, Vector4F.new];
         exact ⟨hx.1, hx.2, hy.1, hy.2, hz.1, hz.2⟩⟩
  · exact ⟨(Vector4F.new mn.x (mn.y + (mx.y - mn.y) / 2)
        (mn.z + (mx.z - mn.z) / 2),
      Vector4F.new (mn.x + (mx.x - mn.x) / 2)
        (mn.y + (mx.y - mn.y) / 2 + (mx.y - mn.y) / 2)
        (mn.z + (mx.z - mn.z) / 2 + (mx.z - mn.z) / 2)), by simp [child_boxes],
      by simp only [in_box, Vector4F.new];
         exact ⟨hx.1, hx.2, hy.1, hy.2, hz.1, hz.2⟩⟩
  · exact ⟨(Vector4F.new (mn.x + (mx.x - mn.x) / 2) mn.y mn.z,
      Vector4F.new (mn.x + (mx.x - mn.x) / 2 + (mx.x - mn.x) / 2)
        (mn.y + (mx.y - mn.y) / 2) (mn.z + (mx.z - mn.z) / 2)),
      by simp [child_boxes],
      by simp only [in_box, Vector4F.new];
         exact ⟨hx.1, hx.2, hy.1, hy.2, hz.1, hz.2⟩⟩
  · exact ⟨(Vector4F.new (mn.x + (mx.x - mn.x) / 2) mn.y
        (mn.z + (mx.z - mn.z) / 2),
      Vector4F.new (mn.x + (mx.x - mn.x) / 2 + (mx.x - mn.x) / 2)
        (mn.y + (mx.y - mn.y) / 2)
        (mn.z + (mx.z - mn.z) / 2 + (mx.z - mn.z) / 2)), by simp [child_boxes],
      by simp only [in_box, Vector4F.new];
         exact ⟨hx.1, hx.2, hy.1, hy.2, hz.1, hz.2⟩⟩
  · exact ⟨(Vector4F.new (mn.x + (mx.x - mn.x) / 2) (mn.y + (mx.y - mn.y) / 2)
        mn.z,
      Vector4F.new (mn.x + (mx.x - mn.x) / 2 + (mx.x - mn.x) / 2)
        (mn.y + (mx.y - mn.y) / 2 + (mx.y - mn.y) / 2)
        (mn.z + (mx.z - mn.z) / 2)), by simp [child_boxes],
      by simp only [in_box, Vector4F.new];
         exact ⟨hx.1, hx.2, hy.1, hy.2, hz.1, hz.2⟩⟩
  · exact ⟨(Vector4F.new (mn.x + (mx.x - mn.x) / 2) (mn.y + (mx.y - mn.y) / 2)
        (mn.z + (mx.z - mn.z) / 2),
      Vector4F.new (mn.x + (mx.x - mn.x) / 2 + (mx.x - mn.x) / 2)
        (mn.y + (mx.y - mn.y) / 2 + (mx.y - mn.y) / 2)
        (mn.z + (mx.z - mn.z) / 2 + (mx.z - mn.z) / 2)), by simp [child_boxes],
      by simp only [in_box, Vector4F.new];
         exact ⟨hx.1, hx.2, hy.1, hy.2, hz.1, hz.2⟩⟩

/-- Helper: every child octant of an ordered box is contained in the box
and itself ordered. -/
theorem child_boxes_sub (mn mx : Vector4F) (hble : box_le mn mx) :
    ∀ cb ∈ child_boxes mn mx,
      box_subset cb.1 cb.2 mn mx ∧ box_le cb.1 cb.2 := by
  obtain ⟨h1, h2, h3⟩ := hble
  intro cb hcb
  simp only [child_boxes, List.mem_cons, List.not_mem_nil, or_false] at hcb
  rcases hcb with rfl | rfl | rfl | rfl | rfl | rfl | rfl | rfl <;>
    constructor <;>
    (simp only [box_subset, box_le, Vector4F.new]; repeat' apply And.intro) <;>
    linarith

/-- Helper: the no-false-negative property at a leaf node of the octree
build: the index of a triangle whose box shares the query point with the
leaf box survives the leaf filter and the ray/box test. -/
theorem candidates_mem_leaf (mesh : OctMesh) (rorg rdir : Vector4F)
    (hdx : rdir.x ≠ 0) (hdy : rdir.y ≠ 0) (hdz : rdir.z ≠ 0) (i : ℕ)
    (p : Vector4F) (t : ℝ)
    (hpt : p = ⟨rorg.x + rdir.x * t, rorg.y + rdir.y * t,
      rorg.z + rdir.z * t, 1⟩)
    (htb : in_box p
      (triangle_to_aabb (mesh.vert1 i).pos (mesh.vert2 i).pos
        (mesh.vert3 i).pos).1
      (triangle_to_aabb (mesh.vert1 i).pos (mesh.vert2 i).pos
        (mesh.vert3 i).pos).2)
    (depth max_depth : ℕ) (mn mx : Vector4F) (indexes : List ℕ)
    (hge : depth ≥ max_depth) (hpin : in_box p mn mx) (hidx : i ∈ indexes) :
    i ∈ intersection_candidates
      (build_octree_rec mesh mn mx indexes depth max_depth) rorg rdir := by
  rw [build_octree_rec_leaf mesh mn mx indexes depth max_depth hge]
  rw [intersection_candidates_mk]
  have hray : ray_intersects_aabb rorg rdir mn mx = true :=
    ray_hits_box_of_point rorg rdir mn mx hdx hdy hdz t (hpt ▸ hpin)
  rw [if_pos hray, if_neg (by simp)]
  exact mem_node_tris mesh mn mx indexes depth i hidx
    (tri_overlap_of_point p _ _ _ mn mx htb hpin)

/-- Helper: the no-false-negative property for every call of
build_octree_rec, by induction on the remaining depth: if the query point
of the ray lies in the node box and in the triangle box, and the index is
in the node's incoming list, then the octree query returns it. -/
theorem candidates_mem_rec (mesh : OctMesh) (rorg rdir : Vector4F)
    (hdx : rdir.x ≠ 0) (hdy : rdir.y ≠ 0) (hdz : rdir.z ≠ 0) (i : ℕ)
    (p : Vector4F) (t : ℝ)
    (hpt : p = ⟨rorg.x + rdir.x * t, rorg.y + rdir.y * t,
      rorg.z + rdir.z * t, 1⟩)
    (htb : in_box p
      (triangle_to_aabb (mesh.vert1 i).pos (mesh.vert2 i).pos
        (mesh.vert3 i).pos).1
      (triangle_to_aabb (mesh.vert1 i).pos (mesh.vert2 i).pos
        (mesh.vert3 i).pos).2) :
    ∀ (k depth max_depth : ℕ), max_depth - depth ≤ k →
      ∀ (mn mx : Vector4F) (indexes : List ℕ), box_le mn mx →
        in_box p mn mx → i ∈ indexes →
        i ∈ intersection_candidates
          (build_octree_rec mesh mn mx indexes depth max_depth) rorg rdir := by
  intro k
  induction k with
  | zero =>
    intro depth max_depth hk mn mx indexes hble hpin hidx
    exact candidates_mem_leaf mesh rorg rdir hdx hdy hdz i p t hpt htb
      depth max_depth mn mx indexes (by omega) hpin hidx
  | succ k ih =>
    intro depth max_depth hk mn mx indexes hble hpin hidx
    by_cases hge : depth ≥ max_depth
    · exact candidates_mem_leaf mesh rorg rdir hdx hdy hdz i p t hpt htb
        depth max_depth mn mx indexes hge hpin hidx
    · rw [build_octree_rec_node mesh mn mx indexes depth max_depth hge]
      have hray : ray_intersects_aabb rorg rdir mn mx = true :=
        ray_hits_box_of_point rorg rdir mn mx hdx hdy hdz t (hpt ▸ hpin)
      obtain ⟨cb, hcb, hpcb⟩ := child_cover mn mx p hble hpin
      have hsub := child_boxes_sub mn mx hble cb hcb
      have htris : i ∈ (if depth > 1 then
          indexes.filter (fun tt => triangle_aabb_overlap (mesh.vert1 tt).pos
            (mesh.vert2 tt).pos (mesh.vert3 tt).pos mn mx)
        else indexes) :=
        mem_node_tris mesh mn mx indexes depth i hidx
          (tri_overlap_of_point p _ _ _ mn mx htb hpin)
      have hrec := ih (depth + 1) max_depth (by omega) cb.1 cb.2 _
        hsub.2 hpcb htris
      exact mem_candidates_of_child _ _ mn mx rorg rdir _ i
        (List.mem_map.mpr ⟨cb, hcb, rfl⟩) hray hrec

/-- Helper: the leaf-membership iff at a leaf node of the build: with depth
at least 2, the leaf list is exactly the incoming list filtered by overlap
with the leaf box. -/
theorem leaves_iff_leaf (mesh : OctMesh) (i : ℕ) (depth max_depth : ℕ)
    (mn mx : Vector4F) (indexes : List ℕ) (hge : depth ≥ max_depth)
    (hd2 : 2 ≤ depth)
    (hin : triangle_aabb_overlap (mesh.vert1 i).pos (mesh.vert2 i).pos
      (mesh.vert3 i).pos mn mx = true → i ∈ indexes) :
    ∀ L ∈ OctreeNode.leaves (build_octree_rec mesh mn mx indexes depth
      max_depth),
      (i ∈ OctreeNode.tris L ↔
        triangle_aabb_overlap (mesh.vert1 i).pos (mesh.vert2 i).pos
          (mesh.vert3 i).pos (OctreeNode.minB L) (OctreeNode.maxB L) = true) := by
  intro L hL
  rw [build_octree_rec_leaf mesh mn mx indexes depth max_depth hge,
    leaves_leaf] at hL
  simp only [List.mem_singleton] at hL
  subst hL
  rw [if_pos (by omega : depth > 1)]
  simp only [OctreeNode.tris, OctreeNode.minB, OctreeNode.maxB]
  constructor
  · intro hmem
    exact (List.mem_filter.mp hmem).2
  · intro hov
    exact List.mem_filter.mpr ⟨hin hov, hov⟩

/-- Helper: the leaf-membership iff for every call of build_octree_rec from
depth at least 1: a triangle index is in a leaf's list exactly when its
bounding box overlaps the leaf's box.  The invariant carried down is that
an overlap with the node box certifies membership in the incoming list. -/
theorem leaves_iff_rec (mesh : OctMesh) (i : ℕ) :
    ∀ (k depth max_depth : ℕ), max_depth - depth ≤ k → 1 ≤ depth →
      (2 ≤ depth ∨ depth < max_depth) →
      ∀ (mn mx : Vector4F) (indexes : List ℕ), box_le mn mx →
        (triangle_aabb_overlap (mesh.vert1 i).pos (mesh.vert2 i).pos
          (mesh.vert3 i).pos mn mx = true → i ∈ indexes) →
        ∀ L ∈ OctreeNode.leaves (build_octree_rec mesh mn mx indexes depth
          max_depth),
          (i ∈ OctreeNode.tris L ↔
            triangle_aabb_overlap (mesh.vert1 i).pos (mesh.vert2 i).pos
              (mesh.vert3 i).pos (OctreeNode.minB L)
              (OctreeNode.maxB L) = true) := by
  intro k
  induction k with
  | zero =>
    intro depth max_depth hk hd1 hd mn mx indexes hble hin
    have hge : depth ≥ max_depth := by omega
    have hd2 : 2 ≤ depth := by omega
    exact leaves_iff_leaf mesh i depth max_depth mn mx indexes hge hd2 hin
  | succ k ih =>
    intro depth max_depth hk hd1 hd mn mx indexes hble hin
    by_cases hge : depth ≥ max_depth
    · have hd2 : 2 ≤ depth := by omega
      exact leaves_iff_leaf mesh i depth max_depth mn mx indexes hge hd2 hin
    · intro L hL
      rw [build_octree_rec_node mesh mn mx indexes depth max_depth hge] at hL
      have hpos : ((child_boxes mn mx).map (fun cb =>
          build_octree_rec mesh cb.1 cb.2
            (if depth > 1 then
              indexes.filter (fun tt =>
                triangle_aabb_overlap (mesh.vert1 tt).pos (mesh.vert2 tt).pos
                  (mesh.vert3 tt).pos mn mx)
            else indexes) (depth + 1) max_depth)).length > 0 := by
        simp [child_boxes]
      obtain ⟨c, hc, hLc⟩ := leaves_elim _ _ mn mx L hpos hL
      obtain ⟨cb, hcb, rfl⟩ := List.mem_map.mp hc
      have hsub := child_boxes_sub mn mx hble cb hcb
      refine ih (depth + 1) max_depth (by omega) (by omega)
        (Or.inl (by omega)) cb.1 cb.2 _ hsub.2 ?_ L hLc
      intro hov
      have hovP : triangle_aabb_overlap (mesh.vert1 i).pos (mesh.vert2 i).pos
          (mesh.vert3 i).pos mn mx = true :=
        tri_overlap_mono _ _ _ _ _ _ _ hov hsub.1
      exact mem_node_tris mesh mn mx indexes depth i (hin hovP) hovP

/-- Helper: box containment is transitive. -/
theorem box_subset_trans (a b m M o O : Vector4F) (h1 : box_subset a b m M)
    (h2 : box_subset m M o O) : box_subset a b o O := by
  obtain ⟨x1, x2, x3, x4, x5, x6⟩ := h1
  obtain ⟨y1, y2, y3, y4, y5, y6⟩ := h2
  exact ⟨le_trans y1 x1, le_trans x2 y2, le_trans y3 x3, le_trans x4 y4,
    le_trans y5 x5, le_trans x6 y6⟩

/-- Helper: a point of a contained box is a point of the container. -/
theorem in_box_mono (p mn1 mx1 mn mx : Vector4F) (h : in_box p mn1 mx1)
    (hs : box_subset mn1 mx1 mn mx) : in_box p mn mx := by
  obtain ⟨x1, x2, x3, x4, x5, x6⟩ := h
  obtain ⟨y1, y2, y3, y4, y5, y6⟩ := hs
  exact ⟨le_trans y1 x1, le_trans x2 y2, le_trans y3 x3, le_trans x4 y4,
    le_trans y5 x5, le_trans x6 y6⟩

/-- Helper: the box of a triangle is ordered on every axis. -/
theorem tri_box_le (a b c : Vector4F) :
    box_le (triangle_to_aabb a b c).1 (triangle_to_aabb a b c).2 := by
  simp only [triangle_to_aabb, box_le]
  refine ⟨?_, ?_, ?_⟩ <;>
    exact le_trans (le_trans (min_le_left _ _) (min_le_left _ _))
      (le_trans (le_max_left _ _) (le_max_left _ _))

/-- Helper: a container of an ordered box is ordered. -/
theorem box_le_of_subset (a b o O : Vector4F) (hs : box_subset a b o O)
    (hle : box_le a b) : box_le o O := by
  obtain ⟨y1, y2, y3, y4, y5, y6⟩ := hs
  obtain ⟨x1, x2, x3⟩ := hle
  exact ⟨le_trans y1 (le_trans x1 y2), le_trans y3 (le_trans x2 y4),
    le_trans y5 (le_trans x3 y6)⟩

/-- Helper: one fold step of the bounds computation widens the box. -/
theorem bounds_step_grows (mesh : OctMesh) (acc : Vector4F × Vector4F)
    (i : ℕ) :
    box_subset acc.1 acc.2 (bounds_step mesh acc i).1
      (bounds_step mesh acc i).2 := by
  simp only [bounds_step, box_subset, qmin, qmax]
  refine ⟨?_, ?_, ?_, ?_, ?_, ?_⟩
  · exact le_trans (min_le_left _ _) (le_trans (min_le_left _ _)
      (min_le_left _ _))
  · exact le_trans (le_trans (le_max_left _ _) (le_max_left _ _))
      (le_max_left _ _)
  · exact le_trans (min_le_left _ _) (le_trans (min_le_left _ _)
      (min_le_left _ _))
  · exact le_trans (le_trans (le_max_left _ _) (le_max_left _ _))
      (le_max_left _ _)
  · exact le_trans (min_le_left _ _) (le_trans (min_le_left _ _)
      (min_le_left _ _))
  · exact le_trans (le_trans (le_max_left _ _) (le_max_left _ _))
      (le_max_left _ _)

/-- Helper: one fold step of the bounds computation covers the box of the
folded triangle. -/
theorem bounds_step_covers (mesh : OctMesh) (acc : Vector4F × Vector4F)
    (i : ℕ) :
    box_subset
      (triangle_to_aabb (mesh.vert1 i).pos (mesh.vert2 i).pos
        (mesh.vert3 i).pos).1
      (triangle_to_aabb (mesh.vert1 i).pos (mesh.vert2 i).pos
        (mesh.vert3 i).pos).2
      (bounds_step mesh acc i).1 (bounds_step mesh acc i).2 := by
  simp only [bounds_step, triangle_to_aabb, box_subset, qmin, qmax]
  refine ⟨?_, ?_, ?_, ?_, ?_, ?_⟩
  · exact le_min (le_min (le_trans (min_le_left _ _)
      (le_trans (min_le_left _ _) (min_le_right _ _)))
      (le_trans (min_le_left _ _) (min_le_right _ _))) (min_le_right _ _)
  · exact max_le (max_le (le_trans (le_trans (le_max_right _ _)
      (le_max_left _ _)) (le_max_left _ _))
      (le_trans (le_max_right _ _) (le_max_left _ _))) (le_max_right _ _)
  · exact le_min (le_min (le_trans (min_le_left _ _)
      (le_trans (min_le_left _ _) (min_le_right _ _)))
      (le_trans (min_le_left _ _) (min_le_right _ _))) (min_le_right _ _)
  · exact max_le (max_le (le_trans (le_trans (le_max_right _ _)
      (le_max_left _ _)) (le_max_left _ _))
      (le_trans (le_max_right _ _) (le_max_left _ _))) (le_max_right _ _)
  · exact le_min (le_min (le_trans (min_le_left _ _)
      (le_trans (min_le_left _ _) (min_le_right _ _)))
      (le_trans (min_le_left _ _) (min_le_right _ _))) (min_le_right _ _)
  · exact max_le (max_le (le_trans (le_trans (le_max_right _ _)
      (le_max_left _ _)) (le_max_left _ _))
      (le_trans (le_max_right _ _) (le_max_left _ _))) (le_max_right _ _)

/-- Helper: box containment is reflexive. -/
theorem box_subset_refl (a b : Vector4F) : box_subset a b a b :=
  ⟨le_refl _, le_refl _, le_refl _, le_refl _, le_refl _, le_refl _⟩

/-- Helper: the bounds fold only widens the accumulator box. -/
theorem bounds_foldl_grows (mesh : OctMesh) :
    ∀ (l : List ℕ) (acc : Vector4F × Vector4F),
      box_subset acc.1 acc.2 (l.foldl (bounds_step mesh) acc).1
        (l.foldl (bounds_step mesh) acc).2 := by
  intro l
  induction l with
  | nil => intro acc; exact box_subset_refl _ _
  | cons a l ih =>
    intro acc
    rw [List.foldl_cons]
    exact box_subset_trans _ _ _ _ _ _ (bounds_step_grows mesh acc a)
      (ih (bounds_step mesh acc a))

/-- Helper: the bounds fold covers the box of every folded triangle. -/
theorem bounds_foldl_covers (mesh : OctMesh) :
    ∀ (l : List ℕ) (acc : Vector4F × Vector4F) (i : ℕ), i ∈ l →
      box_subset
        (triangle_to_aabb (mesh.vert1 i).pos (mesh.vert2 i).pos
          (mesh.vert3 i).pos).1
        (triangle_to_aabb (mesh.vert1 i).pos (mesh.vert2 i).pos
          (mesh.vert3 i).pos).2
        (l.foldl (bounds_step mesh) acc).1
        (l.foldl (bounds_step mesh) acc).2 := by
  intro l
  induction l with
  | nil => intro acc i hi; exact absurd hi (List.not_mem_nil i)
  | cons a l ih =>
    intro acc i hi
    rw [List.foldl_cons]
    rcases List.mem_cons.mp hi with rfl | hi2
    · exact box_subset_trans _ _ _ _ _ _ (bounds_step_covers mesh acc i)
        (bounds_foldl_grows mesh l (bounds_step mesh acc i))
    · exact ih (bounds_step mesh acc a) i hi2

/-- C2: the octree is conservative.  For a mesh whose triangle indices are
in range and a ray with no zero direction component: (1) every triangle
index whose exact ray/triangle test reports a hit is contained in the
candidate list returned by intersection_candidates on the octree built by
build_octree (no false negatives); (2) a triangle index appears in a leaf's
list if and only if the triangle's bounding box overlaps that leaf's box. -/
theorem c2_octree_conservative (mesh : OctMesh) (rorg rdir : Vector4F)
    (hdx : rdir.x ≠ 0) (hdy : rdir.y ≠ 0) (hdz : rdir.z ≠ 0) (i : ℕ)
    (hi : i < mesh.triangles.length) (min_t : ℝ) :
    ((intersect_ray_triangle rorg rdir (mesh.vert1 i) (mesh.vert2 i)
        (mesh.vert3 i) min_t).isSome = true →
      i ∈ intersection_candidates (build_octree mesh) rorg rdir) ∧
    (∀ L ∈ OctreeNode.leaves (build_octree mesh),
      (i ∈ OctreeNode.tris L ↔
        triangle_aabb_overlap (mesh.vert1 i).pos (mesh.vert2 i).pos
          (mesh.vert3 i).pos (OctreeNode.minB L)
          (OctreeNode.maxB L) = true)) := by
  have hcov := bounds_foldl_covers mesh (List.range mesh.triangles.length)
    (⟨f64_upper, f64_upper, f64_upper, 1⟩,
     ⟨f64_lower, f64_lower, f64_lower, 1⟩) i (List.mem_range.mpr hi)
  have hcovR : box_subset
      (triangle_to_aabb (mesh.vert1 i).pos (mesh.vert2 i).pos
        (mesh.vert3 i).pos).1
      (triangle_to_aabb (mesh.vert1 i).pos (mesh.vert2 i).pos
        (mesh.vert3 i).pos).2
      (mesh_bounds mesh).1 (mesh_bounds mesh).2 := by
    rw [mesh_bounds]
    exact hcov
  have hble : box_le (mesh_bounds mesh).1 (mesh_bounds mesh).2 :=
    box_le_of_subset _ _ _ _ hcovR (tri_box_le _ _ _)
  constructor
  · intro hsome
    obtain ⟨hdot, htle, htemp, halpha, hbeta, hgamma⟩ :=
      irt_isSome_guards rorg rdir (mesh.vert1 i) (mesh.vert2 i)
        (mesh.vert3 i) min_t hsome
    have htb := tri_p_in_tri_box rorg rdir (mesh.vert1 i) (mesh.vert2 i)
      (mesh.vert3 i) hdot htemp halpha hbeta hgamma
    have hpin : in_box (tri_p rorg rdir (mesh.vert1 i) (mesh.vert2 i)
        (mesh.vert3 i)) (mesh_bounds mesh).1 (mesh_bounds mesh).2 :=
      in_box_mono _ _ _ _ _ htb hcovR
    rw [build_octree]
    exact candidates_mem_rec mesh rorg rdir hdx hdy hdz i
      (tri_p rorg rdir (mesh.vert1 i) (mesh.vert2 i) (mesh.vert3 i))
      (tri_tq rorg rdir (mesh.vert1 i) (mesh.vert2 i) (mesh.vert3 i))
      rfl htb 6 1 6 (by omega) (mesh_bounds mesh).1 (mesh_bounds mesh).2
      (List.range mesh.triangles.length) hble hpin (List.mem_range.mpr hi)
  · intro L hL
    rw [build_octree] at hL
    exact leaves_iff_rec mesh i 6 1 6 (by omega) (by omega)
      (Or.inr (by omega)) (mesh_bounds mesh).1 (mesh_bounds mesh).2
      (List.range mesh.triangles.length) hble
      (fun _ => List.mem_range.mpr hi) L hL

/-- Witness for C2: a one-triangle mesh hit by a ray whose direction has no
zero component; index 0 is hit and is returned among the candidates. -/
theorem c2_octree_conservative_witness :
    ((⟨0.1, 0.1, -1, 0⟩ : Vector4F)).x ≠ 0 ∧
    ((⟨0.1, 0.1, -1, 0⟩ : Vector4F)).y ≠ 0 ∧
    ((⟨0.1, 0.1, -1, 0⟩ : Vector4F)).z ≠ 0 ∧
    0 < (OctMesh.mk [⟨Vector4F.new 0 0 0, Vector4F.new 0 0 1, 0, 0, Color.black⟩, ⟨Vector4F.new 2 0 0, Vector4F.new 0 0 1, 0, 0, Color.black⟩, ⟨Vector4F.new 0 2 0, Vector4F.new 0 0 1, 0, 0, Color.black⟩] [(0, 1, 2)]).triangles.length ∧
    (intersect_ray_triangle ⟨0.25, 0.25, 1, 1⟩ ⟨0.1, 0.1, -1, 0⟩
      (OctMesh.vert1 (OctMesh.mk [⟨Vector4F.new 0 0 0, Vector4F.new 0 0 1, 0, 0, Color.black⟩, ⟨Vector4F.new 2 0 0, Vector4F.new 0 0 1, 0, 0, Color.black⟩, ⟨Vector4F.new 0 2 0, Vector4F.new 0 0 1, 0, 0, Color.black⟩] [(0, 1, 2)]) 0)
      (OctMesh.vert2 (OctMesh.mk [⟨Vector4F.new 0 0 0, Vector4F.new 0 0 1, 0, 0, Color.black⟩, ⟨Vector4F.new 2 0 0, Vector4F.new 0 0 1, 0, 0, Color.black⟩, ⟨Vector4F.new 0 2 0, Vector4F.new 0 0 1, 0, 0, Color.black⟩] [(0, 1, 2)]) 0)
      (OctMesh.vert3 (OctMesh.mk [⟨Vector4F.new 0 0 0, Vector4F.new 0 0 1, 0, 0, Color.black⟩, ⟨Vector4F.new 2 0 0, Vector4F.new 0 0 1, 0, 0, Color.black⟩, ⟨Vector4F.new 0 2 0, Vector4F.new 0 0 1, 0, 0, Color.black⟩] [(0, 1, 2)]) 0) 1000).isSome = true ∧
    0 ∈ intersection_candidates (build_octree (OctMesh.mk [⟨Vector4F.new 0 0 0, Vector4F.new 0 0 1, 0, 0, Color.black⟩, ⟨Vector4F.new 2 0 0, Vector4F.new 0 0 1, 0, 0, Color.black⟩, ⟨Vector4F.new 0 2 0, Vector4F.new 0 0 1, 0, 0, Color.black⟩] [(0, 1, 2)])) ⟨0.25, 0.25, 1, 1⟩ ⟨0.1, 0.1, -1, 0⟩ := by
  have hv1 : OctMesh.vert1 (OctMesh.mk [⟨Vector4F.new 0 0 0, Vector4F.new 0 0 1, 0, 0, Color.black⟩, ⟨Vector4F.new 2 0 0, Vector4F.new 0 0 1, 0, 0, Color.black⟩, ⟨Vector4F.new 0 2 0, Vector4F.new 0 0 1, 0, 0, Color.black⟩] [(0, 1, 2)]) 0 = ⟨Vector4F.new 0 0 0, Vector4F.new 0 0 1, 0, 0, Color.black⟩ := rfl
  have hv2 : OctMesh.vert2 (OctMesh.mk [⟨Vector4F.new 0 0 0, Vector4F.new 0 0 1, 0, 0, Color.black⟩, ⟨Vector4F.new 2 0 0, Vector4F.new 0 0 1, 0, 0, Color.black⟩, ⟨Vector4F.new 0 2 0, Vector4F.new 0 0 1, 0, 0, Color.black⟩] [(0, 1, 2)]) 0 = ⟨Vector4F.new 2 0 0, Vector4F.new 0 0 1, 0, 0, Color.black⟩ := rfl
  have hv3 : OctMesh.vert3 (OctMesh.mk [⟨Vector4F.new 0 0 0, Vector4F.new 0 0 1, 0, 0, Color.black⟩, ⟨Vector4F.new 2 0 0, Vector4F.new 0 0 1, 0, 0, Color.black⟩, ⟨Vector4F.new 0 2 0, Vector4F.new 0 0 1, 0, 0, Color.black⟩] [(0, 1, 2)]) 0 = ⟨Vector4F.new 0 2 0, Vector4F.new 0 0 1, 0, 0, Color.black⟩ := rfl
  have hn : tri_n ⟨Vector4F.new 0 0 0, Vector4F.new 0 0 1, 0, 0, Color.black⟩ ⟨Vector4F.new 2 0 0, Vector4F.new 0 0 1, 0, 0, Color.black⟩ ⟨Vector4F.new 0 2 0, Vector4F.new 0 0 1, 0, 0, Color.black⟩ = ⟨0, 0, 4, 1⟩ := by
    norm_num [tri_n, Vector4F.cross, Vector4F.sub, Vector4F.new]
  have hdot : tri_dot ⟨0.1, 0.1, -1, 0⟩ ⟨Vector4F.new 0 0 0, Vector4F.new 0 0 1, 0, 0, Color.black⟩ ⟨Vector4F.new 2 0 0, Vector4F.new 0 0 1, 0, 0, Color.black⟩ ⟨Vector4F.new 0 2 0, Vector4F.new 0 0 1, 0, 0, Color.black⟩ = -4 := by
    rw [tri_dot, hn]
    norm_num [Vector4F.dot]
  have htn : tri_t_num ⟨0.25, 0.25, 1, 1⟩ ⟨Vector4F.new 0 0 0, Vector4F.new 0 0 1, 0, 0, Color.black⟩ ⟨Vector4F.new 2 0 0, Vector4F.new 0 0 1, 0, 0, Color.black⟩ ⟨Vector4F.new 0 2 0, Vector4F.new 0 0 1, 0, 0, Color.black⟩ = -4 := by
    rw [tri_t_num, hn]
    norm_num [Vector4F.dot, Vector4F.new]
  have htq : tri_tq ⟨0.25, 0.25, 1, 1⟩ ⟨0.1, 0.1, -1, 0⟩ ⟨Vector4F.new 0 0 0, Vector4F.new 0 0 1, 0, 0, Color.black⟩ ⟨Vector4F.new 2 0 0, Vector4F.new 0 0 1, 0, 0, Color.black⟩ ⟨Vector4F.new 0 2 0, Vector4F.new 0 0 1, 0, 0, Color.black⟩ = 1 := by
    rw [tri_tq, htn, hdot]
    norm_num
  have hp : tri_p ⟨0.25, 0.25, 1, 1⟩ ⟨0.1, 0.1, -1, 0⟩ ⟨Vector4F.new 0 0 0, Vector4F.new 0 0 1, 0, 0, Color.black⟩ ⟨Vector4F.new 2 0 0, Vector4F.new 0 0 1, 0, 0, Color.black⟩ ⟨Vector4F.new 0 2 0, Vector4F.new 0 0 1, 0, 0, Color.black⟩ = ⟨0.35, 0.35, 0, 1⟩ := by
    rw [tri_p, htq]
    norm_num [Vector4F.mk.injEq]
  have h4abs : |(4 : ℝ)| = 4 := abs_of_nonneg (by norm_num)
  have huv : tri_uv ⟨0.25, 0.25, 1, 1⟩ ⟨0.1, 0.1, -1, 0⟩ ⟨Vector4F.new 0 0 0, Vector4F.new 0 0 1, 0, 0, Color.black⟩ ⟨Vector4F.new 2 0 0, Vector4F.new 0 0 1, 0, 0, Color.black⟩ ⟨Vector4F.new 0 2 0, Vector4F.new 0 0 1, 0, 0, Color.black⟩ =
      ((0.35, 2, 0), (0.35, 0, 2)) := by
    rw [tri_uv, hn, hp]
    norm_num [tri_proj, Vector4F.new, abs_zero, h4abs, Prod.ext_iff]
  have htemp : tri_temp ⟨0.25, 0.25, 1, 1⟩ ⟨0.1, 0.1, -1, 0⟩ ⟨Vector4F.new 0 0 0, Vector4F.new 0 0 1, 0, 0, Color.black⟩ ⟨Vector4F.new 2 0 0, Vector4F.new 0 0 1, 0, 0, Color.black⟩ ⟨Vector4F.new 0 2 0, Vector4F.new 0 0 1, 0, 0, Color.black⟩ = 4 := by
    rw [tri_temp, huv]
    norm_num
  have halpha : tri_alpha ⟨0.25, 0.25, 1, 1⟩ ⟨0.1, 0.1, -1, 0⟩ ⟨Vector4F.new 0 0 0, Vector4F.new 0 0 1, 0, 0, Color.black⟩ ⟨Vector4F.new 2 0 0, Vector4F.new 0 0 1, 0, 0, Color.black⟩ ⟨Vector4F.new 0 2 0, Vector4F.new 0 0 1, 0, 0, Color.black⟩ = 0.175 := by
    rw [tri_alpha, huv, htemp]
    norm_num
  have hbeta : tri_beta ⟨0.25, 0.25, 1, 1⟩ ⟨0.1, 0.1, -1, 0⟩ ⟨Vector4F.new 0 0 0, Vector4F.new 0 0 1, 0, 0, Color.black⟩ ⟨Vector4F.new 2 0 0, Vector4F.new 0 0 1, 0, 0, Color.black⟩ ⟨Vector4F.new 0 2 0, Vector4F.new 0 0 1, 0, 0, Color.black⟩ = 0.175 := by
    rw [tri_beta, huv, htemp]
    norm_num
  have hgamma : tri_gamma ⟨0.25, 0.25, 1, 1⟩ ⟨0.1, 0.1, -1, 0⟩ ⟨Vector4F.new 0 0 0, Vector4F.new 0 0 1, 0, 0, Color.black⟩ ⟨Vector4F.new 2 0 0, Vector4F.new 0 0 1, 0, 0, Color.black⟩ ⟨Vector4F.new 0 2 0, Vector4F.new 0 0 1, 0, 0, Color.black⟩ = 0.65 := by
    rw [tri_gamma, halpha, hbeta]
    norm_num
  have hsome : (intersect_ray_triangle ⟨0.25, 0.25, 1, 1⟩ ⟨0.1, 0.1, -1, 0⟩
      (OctMesh.vert1 (OctMesh.mk [⟨Vector4F.new 0 0 0, Vector4F.new 0 0 1, 0, 0, Color.black⟩, ⟨Vector4F.new 2 0 0, Vector4F.new 0 0 1, 0, 0, Color.black⟩, ⟨Vector4F.new 0 2 0, Vector4F.new 0 0 1, 0, 0, Color.black⟩] [(0, 1, 2)]) 0)
      (OctMesh.vert2 (OctMesh.mk [⟨Vector4F.new 0 0 0, Vector4F.new 0 0 1, 0, 0, Color.black⟩, ⟨Vector4F.new 2 0 0, Vector4F.new 0 0 1, 0, 0, Color.black⟩, ⟨Vector4F.new 0 2 0, Vector4F.new 0 0 1, 0, 0, Color.black⟩] [(0, 1, 2)]) 0)
      (OctMesh.vert3 (OctMesh.mk [⟨Vector4F.new 0 0 0, Vector4F.new 0 0 1, 0, 0, Color.black⟩, ⟨Vector4F.new 2 0 0, Vector4F.new 0 0 1, 0, 0, Color.black⟩, ⟨Vector4F.new 0 2 0, Vector4F.new 0 0 1, 0, 0, Color.black⟩] [(0, 1, 2)]) 0) 1000).isSome = true := by
    rw [hv1, hv2, hv3]
    simp only [intersect_ray_triangle, hdot, htn, htemp, halpha, hbeta,
      hgamma]
    norm_num
  refine ⟨by norm_num, by norm_num, by norm_num, by norm_num, hsome, ?_⟩
  exact (c2_octree_conservative (OctMesh.mk [⟨Vector4F.new 0 0 0, Vector4F.new 0 0 1, 0, 0, Color.black⟩, ⟨Vector4F.new 2 0 0, Vector4F.new 0 0 1, 0, 0, Color.black⟩, ⟨Vector4F.new 0 2 0, Vector4F.new 0 0 1, 0, 0, Color.black⟩] [(0, 1, 2)]) ⟨0.25, 0.25, 1, 1⟩ ⟨0.1, 0.1, -1, 0⟩ (by norm_num) (by norm_num)
    (by norm_num) 0 (by norm_num) 1000).1 hsome
